import Mathlib

/-!
# Talking Stick: channel access-control gate and settle circuit breaker

A shallow embedding of `server/plugin.go` and `server/commands.go`.

* Go strings are Lean `String`s; the helpers of the Go `strings` and `strconv`
  packages the plugin calls are defined on their character lists.
* A Go map is either the nil map or its lookup function, `none` standing for
  an absent key.  A Go slice is an `Option (List _)` whose `none` is the nil
  slice.
* The Mattermost server API (`p.API`) is a record of lookup tables together
  with the contents of the plugin key-value store; writing the store yields a
  new record.
* The byte strings kept in the key-value store are represented by what
  `json.Unmarshal` makes of them.
* `int` and `int64` are `Int`; the one addition that can leave the `int64`
  range (`model.GetMillis() + int64(seconds*1000)`) wraps explicitly.
-/

namespace TalkingStick

/-! ## Go standard library helpers -/

/-- The Go call `strings.HasPrefix(s, pre)`. -/
def hasPrefixStr (s pre : String) : Bool :=
  pre.data.isPrefixOf s.data

/-- The Go call `strings.TrimPrefix(s, pre)`: `s` without the leading `pre`, or `s` itself. -/
def trimPrefixStr (s pre : String) : String :=
  if hasPrefixStr s pre then String.mk (s.data.drop pre.data.length) else s

/-- Substring test on character lists. -/
def containsChars : List Char → List Char → Bool
  | [], sub => sub.isEmpty
  | c :: cs, sub => sub.isPrefixOf (c :: cs) || containsChars cs sub

/-- The Go call `strings.Contains(s, sub)`. -/
def stringsContains (s sub : String) : Bool :=
  containsChars s.data sub.data

/-- The lower-case part of the Go table `unicode.CaseRanges` above ASCII, the simple
lower-case mappings of Unicode 14.0.0: an entry `(lo, hi, step, delta)` gives each of the
code points `lo`, `lo + step`, ... up to `hi` the lower case `code point + delta`. -/
def lowerCaseRanges : List (Nat × Nat × Nat × Int) :=
  [(192, 214, 1, 32), (216, 222, 1, 32), (256, 302, 2, 1), (304, 304, 1, -199),
   (306, 310, 2, 1), (313, 327, 2, 1), (330, 374, 2, 1), (376, 376, 1, -121), (377, 381, 2, 1),
   (385, 385, 1, 210), (386, 388, 2, 1), (390, 390, 1, 206), (391, 391, 1, 1),
   (393, 394, 1, 205), (395, 395, 1, 1), (398, 398, 1, 79), (399, 399, 1, 202),
   (400, 400, 1, 203), (401, 401, 1, 1), (403, 403, 1, 205), (404, 404, 1, 207),
   (406, 406, 1, 211), (407, 407, 1, 209), (408, 408, 1, 1), (412, 412, 1, 211),
   (413, 413, 1, 213), (415, 415, 1, 214), (416, 420, 2, 1), (422, 422, 1, 218),
   (423, 423, 1, 1), (425, 425, 1, 218), (428, 428, 1, 1), (430, 430, 1, 218), (431, 431, 1, 1),
   (433, 434, 1, 217), (435, 437, 2, 1), (439, 439, 1, 219), (440, 440, 1, 1), (444, 444, 1, 1),
   (452, 452, 1, 2), (453, 453, 1, 1), (455, 455, 1, 2), (456, 456, 1, 1), (458, 458, 1, 2),
   (459, 475, 2, 1), (478, 494, 2, 1), (497, 497, 1, 2), (498, 500, 2, 1), (502, 502, 1, -97),
   (503, 503, 1, -56), (504, 542, 2, 1), (544, 544, 1, -130), (546, 562, 2, 1),
   (570, 570, 1, 10795), (571, 571, 1, 1), (573, 573, 1, -163), (574, 574, 1, 10792),
   (577, 577, 1, 1), (579, 579, 1, -195), (580, 580, 1, 69), (581, 581, 1, 71),
   (582, 590, 2, 1), (880, 882, 2, 1), (886, 886, 1, 1), (895, 895, 1, 116), (902, 902, 1, 38),
   (904, 906, 1, 37), (908, 908, 1, 64), (910, 911, 1, 63), (913, 929, 1, 32),
   (931, 939, 1, 32), (975, 975, 1, 8), (984, 1006, 2, 1), (1012, 1012, 1, -60),
   (1015, 1015, 1, 1), (1017, 1017, 1, -7), (1018, 1018, 1, 1), (1021, 1023, 1, -130),
   (1024, 1039, 1, 80), (1040, 1071, 1, 32), (1120, 1152, 2, 1), (1162, 1214, 2, 1),
   (1216, 1216, 1, 15), (1217, 1229, 2, 1), (1232, 1326, 2, 1), (1329, 1366, 1, 48),
   (4256, 4293, 1, 7264), (4295, 4295, 1, 7264), (4301, 4301, 1, 7264), (5024, 5103, 1, 38864),
   (5104, 5109, 1, 8), (7312, 7354, 1, -3008), (7357, 7359, 1, -3008), (7680, 7828, 2, 1),
   (7838, 7838, 1, -7615), (7840, 7934, 2, 1), (7944, 7951, 1, -8), (7960, 7965, 1, -8),
   (7976, 7983, 1, -8), (7992, 7999, 1, -8), (8008, 8013, 1, -8), (8025, 8031, 2, -8),
   (8040, 8047, 1, -8), (8072, 8079, 1, -8), (8088, 8095, 1, -8), (8104, 8111, 1, -8),
   (8120, 8121, 1, -8), (8122, 8123, 1, -74), (8124, 8124, 1, -9), (8136, 8139, 1, -86),
   (8140, 8140, 1, -9), (8152, 8153, 1, -8), (8154, 8155, 1, -100), (8168, 8169, 1, -8),
   (8170, 8171, 1, -112), (8172, 8172, 1, -7), (8184, 8185, 1, -128), (8186, 8187, 1, -126),
   (8188, 8188, 1, -9), (8486, 8486, 1, -7517), (8490, 8490, 1, -8383), (8491, 8491, 1, -8262),
   (8498, 8498, 1, 28), (8544, 8559, 1, 16), (8579, 8579, 1, 1), (9398, 9423, 1, 26),
   (11264, 11311, 1, 48), (11360, 11360, 1, 1), (11362, 11362, 1, -10743),
   (11363, 11363, 1, -3814), (11364, 11364, 1, -10727), (11367, 11371, 2, 1),
   (11373, 11373, 1, -10780), (11374, 11374, 1, -10749), (11375, 11375, 1, -10783),
   (11376, 11376, 1, -10782), (11378, 11378, 1, 1), (11381, 11381, 1, 1),
   (11390, 11391, 1, -10815), (11392, 11490, 2, 1), (11499, 11501, 2, 1), (11506, 11506, 1, 1),
   (42560, 42604, 2, 1), (42624, 42650, 2, 1), (42786, 42798, 2, 1), (42802, 42862, 2, 1),
   (42873, 42875, 2, 1), (42877, 42877, 1, -35332), (42878, 42886, 2, 1), (42891, 42891, 1, 1),
   (42893, 42893, 1, -42280), (42896, 42898, 2, 1), (42902, 42920, 2, 1),
   (42922, 42922, 1, -42308), (42923, 42923, 1, -42319), (42924, 42924, 1, -42315),
   (42925, 42925, 1, -42305), (42926, 42926, 1, -42308), (42928, 42928, 1, -42258),
   (42929, 42929, 1, -42282), (42930, 42930, 1, -42261), (42931, 42931, 1, 928),
   (42932, 42946, 2, 1), (42948, 42948, 1, -48), (42949, 42949, 1, -42307),
   (42950, 42950, 1, -35384), (42951, 42953, 2, 1), (42960, 42960, 1, 1), (42966, 42968, 2, 1),
   (42997, 42997, 1, 1), (65313, 65338, 1, 32), (66560, 66599, 1, 40), (66736, 66771, 1, 40),
   (66928, 66938, 1, 39), (66940, 66954, 1, 39), (66956, 66962, 1, 39), (66964, 66965, 1, 39),
   (68736, 68786, 1, 64), (71840, 71871, 1, 32), (93760, 93791, 1, 32), (125184, 125217, 1, 34)]

/-- The Go call `unicode.ToLower(r)`: ASCII letters directly, any other rune through the
case table; a rune with no entry is its own lower case. -/
def unicodeToLower (c : Char) : Char :=
  let n := c.toNat
  if n ≤ 127 then
    if 65 ≤ n ∧ n ≤ 90 then Char.ofNat (n + 32) else c
  else
    match lowerCaseRanges.find?
        (fun r => decide (r.1 ≤ n ∧ n ≤ r.2.1) && (n - r.1) % r.2.2.1 == 0) with
    | some r => Char.ofNat (Int.toNat ((n : Int) + r.2.2.2))
    | none => c

/-- The Go call `strings.ToLower(s)`: every rune mapped by `unicode.ToLower`. -/
def stringsToLower (s : String) : String :=
  String.mk (s.data.map unicodeToLower)

/-- The white space of Go, `unicode.IsSpace`. -/
def isSpaceRune (c : Char) : Bool :=
  let n := c.toNat
  n == 9 || n == 10 || n == 11 || n == 12 || n == 13 || n == 32 || n == 0x85 || n == 0xA0 ||
  n == 0x1680 || (0x2000 ≤ n && n ≤ 0x200A) || n == 0x2028 || n == 0x2029 || n == 0x202F ||
  n == 0x205F || n == 0x3000

/-- The Go call `strings.TrimSpace(s)`. -/
def stringsTrimSpace (s : String) : String :=
  String.mk ((s.data.dropWhile isSpaceRune).reverse.dropWhile isSpaceRune).reverse

/-- Splitting a character list at every line feed; the pieces are never none. -/
def splitLines : List Char → List (List Char)
  | [] => [[]]
  | c :: cs =>
    match splitLines cs with
    | [] => [[]]
    | l :: ls => if c = '\n' then [] :: l :: ls else (c :: l) :: ls

/-- The Go call `strings.Split(s, "\n")`. -/
def stringsSplitLines (s : String) : List String :=
  (splitLines s.data).map String.mk

/-- The decimal value of a digit string read after the accumulator `acc`; `none` when a
character is not one of `0` to `9`. -/
def parseDigits : List Char → Nat → Option Nat
  | [], acc => some acc
  | c :: cs, acc =>
    if 48 ≤ c.toNat ∧ c.toNat ≤ 57 then parseDigits cs (acc * 10 + (c.toNat - 48)) else none

/-- The Go call `strconv.Atoi(s)` with a 64-bit `int`: an optional sign, then at least one
decimal digit, the value within the `int` range; `none` is a non-nil error. -/
def atoi (s : String) : Option Int :=
  match s.data with
  | [] => none
  | c :: cs =>
    if c = '-' then
      if cs.isEmpty then none
      else match parseDigits cs 0 with
        | none => none
        | some n => if n ≤ 2 ^ 63 then some (-(n : Int)) else none
    else
      let ds := if c = '+' then cs else c :: cs
      if ds.isEmpty then none
      else match parseDigits ds 0 with
        | none => none
        | some n => if n < 2 ^ 63 then some (n : Int) else none

/-- The fields of a character list: the runs between white space, `cur` holding the run
being read, last character first. -/
def fieldsChars : List Char → List Char → List String
  | [], cur => if cur.isEmpty then [] else [String.mk cur.reverse]
  | c :: cs, cur =>
    if isSpaceRune c then
      if cur.isEmpty then fieldsChars cs [] else String.mk cur.reverse :: fieldsChars cs []
    else fieldsChars cs (c :: cur)

/-- The Go call `strings.Fields(s)`. -/
def stringsFields (s : String) : List String :=
  fieldsChars s.data []

/-- Two's-complement wrap of an integer into the `int64` range. -/
def wrapInt64 (x : Int) : Int :=
  (x + 2 ^ 63) % 2 ^ 64 - 2 ^ 63

/-! ## The server API and the data model -/

/-- Outcome of a server API call that returns a pointer together with an error. -/
inductive Lookup (α : Type) where
  /-- The error is not nil. -/
  | failed : Lookup α
  /-- The error is nil and so is the pointer. -/
  | missing : Lookup α
  /-- The error is nil and the pointer is not. -/
  | found : α → Lookup α

/-- The fields of `model.User` the plugin reads. -/
structure User where
  Id : String
  Username : String
  IsBot : Bool
  Roles : String

/-- The field of `model.ChannelMember` the plugin reads. -/
structure ChannelMember where
  SchemeAdmin : Bool

/-- The field of `model.Channel` the plugin reads. -/
structure Channel where
  TeamId : String

/-- The field of `model.TeamMember` the plugin reads. -/
structure TeamMember where
  SchemeAdmin : Bool

/-- The fields of `model.Post` the plugin reads. -/
structure Post where
  UserId : String
  ChannelId : String
  Message : String
  /-- The field `Type`. -/
  Type_ : String
  deriving DecidableEq

/-- The fields of `model.CommandArgs` the plugin reads. -/
structure CommandArgs where
  UserId : String
  ChannelId : String
  Command : String

/-- The Go type `model.CommandResponse`, its two fields the plugin fills. -/
structure CommandResponse where
  ResponseType : String
  Text : String
  deriving DecidableEq

def CommandResponseTypeEphemeral : String := "ephemeral"

def CommandResponseTypeInChannel : String := "in_channel"

/-- The constant `plugin.DismissPostError`. -/
def DismissPostError : String := "plugin.message_will_be_posted.dismiss_post"

/-- The method `IsSystemMessage` of `model.Post`: the type starts with `system_`. -/
def Post.IsSystemMessage (post : Post) : Bool :=
  hasPrefixStr post.Type_ "system_"

/-- A Go map with string keys. -/
inductive GoMap (V : Type) where
  /-- The nil map. -/
  | nil : GoMap V
  /-- A map that was made, given by its lookup function. -/
  | entries : (String → Option V) → GoMap V

/-- The Go call `make(map[string]V)`. -/
def GoMap.make {V : Type} : GoMap V := .entries (fun _ => none)

/-- The read `v, ok := m[k]`; `none` when `ok` is false. -/
def GoMap.lookup {V : Type} (m : GoMap V) (k : String) : Option V :=
  match m with
  | .nil => none
  | .entries f => f k

/-- The write `m[k] = v`; `none` is the run-time panic of a write to the nil map. -/
def GoMap.assign {V : Type} (m : GoMap V) (k : String) (v : V) : Option (GoMap V) :=
  match m with
  | .nil => none
  | .entries f => some (.entries (fun x => if x = k then some v else f x))

/-- The Go call `delete(m, k)`; nothing happens on the nil map. -/
def GoMap.delete {V : Type} (m : GoMap V) (k : String) : GoMap V :=
  match m with
  | .nil => .nil
  | .entries f => .entries (fun x => if x = k then none else f x)

abbrev ChannelMode := String

def ModeOpen : ChannelMode := "open"

def ModeSpeakersOnly : ChannelMode := "speakers"

def ModeQA : ChannelMode := "qa"

def ModeLocked : ChannelMode := "locked"

structure ChannelState where
  Mode : ChannelMode
  Speakers : GoMap Bool
  QASlots : GoMap Int
  /-- Unix timestamp in milliseconds. -/
  SettleUntil : Int
  /-- Either `["all"]` or user names; `none` is the nil slice. -/
  SettleAgents : Option (List String)
  /-- Mode to restore after settle expires. -/
  PreviousMode : ChannelMode

/-- A value of the key-value store, represented by what `json.Unmarshal` makes of it. -/
inductive Bytes where
  /-- Bytes that `json.Unmarshal` rejects for a `ChannelState`. -/
  | invalid : Bytes
  /-- Bytes that decode to the given record. -/
  | json : ChannelState → Bytes

/-- The Go call `json.Marshal(state)`; it cannot fail on a `ChannelState`. -/
def jsonMarshal (state : ChannelState) : Bytes := .json state

/-- The Go call `json.Unmarshal(data, &state)` into a zero `ChannelState`; `none` is an error. -/
def jsonUnmarshal (data : Bytes) : Option ChannelState :=
  match data with
  | .invalid => none
  | .json state => some state

/-- The Mattermost server as the plugin sees it through `p.API`. -/
structure API where
  GetUser : String → Lookup User
  GetUserByUsername : String → Lookup User
  /-- Arguments: channel ID, user ID. -/
  GetChannelMember : String → String → Lookup ChannelMember
  GetChannel : String → Lookup Channel
  /-- Arguments: team ID, user ID. -/
  GetTeamMember : String → String → Lookup TeamMember
  /-- Contents of the plugin key-value store. -/
  kv : String → Option Bytes
  /-- Keys whose read fails. -/
  kvGetFails : String → Bool
  /-- Keys whose write fails. -/
  kvSetFails : String → Bool

def API.KVGet (api : API) (key : String) : Lookup Bytes :=
  if api.kvGetFails key then .failed
  else match api.kv key with
    | none => .missing
    | some data => .found data

/-- The write of one key; `none` is a non-nil error, the store being as before. -/
def API.KVSet (api : API) (key : String) (data : Bytes) : Option API :=
  if api.kvSetFails key then none
  else some { api with kv := fun k => if k = key then some data else api.kv k }

structure configuration where
  AllowSystemAdmins : Bool
  AllowTeamAdmins : Bool
  AllowChannelAdmins : Bool
  AllowBots : Bool
  SuppressionPhrases : String

structure Plugin where
  API : API
  /-- The loaded configuration; `none` is the nil pointer. -/
  configuration : Option configuration

/-! ## `server/plugin.go` -/

def getConfiguration (p : Plugin) : configuration :=
  match p.configuration with
  | none =>
    { AllowSystemAdmins := true, AllowTeamAdmins := true, AllowChannelAdmins := true,
      AllowBots := true, SuppressionPhrases := "" }
  | some c => c

/-- The key of a channel in the store, `fmt.Sprintf("channel_%s", channelID)`. -/
def channelKey (channelID : String) : String := "channel_" ++ channelID

/-- Loads the state of a channel; `Except.error` is the non-nil `AppError`. -/
def getChannelState (p : Plugin) (channelID : String) : Except String ChannelState :=
  match p.API.KVGet (channelKey channelID) with
  | .failed => .error "app.plugin.kv_get.app_error"
  | .missing =>
    .ok { Mode := ModeOpen, Speakers := GoMap.make, QASlots := GoMap.make,
          SettleUntil := 0, SettleAgents := none, PreviousMode := "" }
  | .found data =>
    match jsonUnmarshal data with
    | none => .error "app.plugin.unmarshal.app_error"
    | some state =>
      let state :=
        match state.Speakers with
        | .nil => { state with Speakers := GoMap.make }
        | .entries _ => state
      let state :=
        match state.QASlots with
        | .nil => { state with QASlots := GoMap.make }
        | .entries _ => state
      let state :=
        match state.SettleAgents with
        | none => { state with SettleAgents := some [] }
        | some _ => state
      .ok state

/-- Saves the state of a channel; `Except.error` is the non-nil `AppError`, the store being
as before. -/
def setChannelState (p : Plugin) (channelID : String) (state : ChannelState) :
    Except String Plugin :=
  match p.API.KVSet (channelKey channelID) (jsonMarshal state) with
  | none => .error "app.plugin.kv_set.app_error"
  | some api => .ok { p with API := api }

/-- The bypass verdict together with the returned error, which is always nil (`none`). -/
def canBypassTalkingStick (p : Plugin) (userID channelID : String) : Bool × Option String :=
  let config := getConfiguration p
  match p.API.GetUser userID with
  | .failed => (false, none)
  | .missing => (false, none)
  | .found user =>
    if config.AllowBots && user.IsBot then (true, none)
    else if config.AllowSystemAdmins && stringsContains user.Roles "system_admin" then
      (true, none)
    else
      match p.API.GetChannelMember channelID userID with
      | .failed => (false, none)
      | .missing => (false, none)
      | .found member =>
        if config.AllowChannelAdmins && member.SchemeAdmin then (true, none)
        else if config.AllowTeamAdmins then
          match p.API.GetChannel channelID with
          | .failed => (false, none)
          | .missing => (false, none)
          | .found channel =>
            match p.API.GetTeamMember channel.TeamId userID with
            | .failed => (false, none)
            | .missing => (false, none)
            | .found teamMember =>
              if teamMember.SchemeAdmin then (true, none) else (false, none)
        else (false, none)

/-- The suppression loop of `MessageWillBePosted`: some configured phrase, lowered and
trimmed, is not empty and occurs in the lowered message. -/
def suppressed (config : configuration) (message : String) : Bool :=
  if config.SuppressionPhrases ≠ "" then
    let lowerMsg := stringsToLower message
    (stringsSplitLines config.SuppressionPhrases).any fun phrase =>
      let phrase := stringsTrimSpace (stringsToLower phrase)
      phrase ≠ "" && stringsContains lowerMsg phrase
  else false

/-- What `MessageWillBePosted` returns, with the plugin after the call. -/
structure HookResult where
  /-- The returned post; `none` is nil. -/
  post : Option Post
  /-- The returned rejection reason. -/
  reason : String
  plugin : Plugin

/-- The hook run before a post is committed.  Logging is left out, and so is the channel
lookup made only for a log line. -/
def MessageWillBePosted (p : Plugin) (post : Option Post) : HookResult :=
  match post with
  | none => ⟨none, "", p⟩
  | some post =>
    if post.IsSystemMessage then ⟨some post, "", p⟩
    else if suppressed (getConfiguration p) post.Message then ⟨none, DismissPostError, p⟩
    else
      match getChannelState p post.ChannelId with
      | .error _ => ⟨some post, "", p⟩
      | .ok state =>
        if (canBypassTalkingStick p post.UserId post.ChannelId).1 then ⟨some post, "", p⟩
        else if state.Mode = ModeOpen then ⟨some post, "", p⟩
        else if state.Mode = ModeSpeakersOnly then
          if (state.Speakers.lookup post.UserId).getD false then ⟨some post, "", p⟩
          else
            ⟨none, "This channel is in speakers-only mode. You do not have speaking privileges.", p⟩
        else if state.Mode = ModeQA then
          if (state.Speakers.lookup post.UserId).getD false then ⟨some post, "", p⟩
          else
            match state.QASlots.lookup post.UserId with
            | some slots =>
              if slots > 0 then
                match state.QASlots.assign post.UserId (slots - 1) with
                | none => ⟨none, "", p⟩ -- a panic, recovered: the zero results
                | some qaSlots =>
                  match setChannelState p post.ChannelId { state with QASlots := qaSlots } with
                  | .error _ => ⟨some post, "", p⟩
                  | .ok p' => ⟨some post, "", p'⟩
              else ⟨none, "This channel is in Q&A mode. You do not have a question slot.", p⟩
            | none => ⟨none, "This channel is in Q&A mode. You do not have a question slot.", p⟩
        else if state.Mode = ModeLocked then
          ⟨none, "This channel is locked. Only administrators can post.", p⟩
        else ⟨some post, "", p⟩

/-! ## `server/commands.go` -/

/-- The goroutine `executeSettle` starts: it sleeps `seconds` and then runs `settleRestore`
on the channel. -/
structure DeferredRestore where
  seconds : Int
  channelID : String
  deriving DecidableEq

/-- What a command handler returns (the returned `AppError` is nil in every handler), with
the plugin after the call and the goroutine it started, if any. -/
structure CommandResult where
  response : CommandResponse
  plugin : Plugin
  deferred : Option DeferredRestore

/-- A response shown to the caller only; nothing is written. -/
def ephemeral (p : Plugin) (text : String) : CommandResult :=
  ⟨⟨CommandResponseTypeEphemeral, text⟩, p, none⟩

/-- A response shown in the channel. -/
def inChannel (p : Plugin) (text : String) : CommandResult :=
  ⟨⟨CommandResponseTypeInChannel, text⟩, p, none⟩

/-- The handler of `/stick grant`; `none` is a run-time panic (a nil `user` with a nil error,
or a write to a nil map). -/
def executeGrant (p : Plugin) (args : CommandArgs) (params : List String) :
    Option CommandResult :=
  match params with
  | [] => some (ephemeral p "Usage: `/stick grant @username`")
  | param0 :: _ =>
    let username := trimPrefixStr param0 "@"
    match p.API.GetUserByUsername username with
    | .failed => some (ephemeral p ("User @" ++ username ++ " not found."))
    | user =>
      match getChannelState p args.ChannelId with
      | .error _ => some (ephemeral p "Failed to get channel state.")
      | .ok state =>
        match user with
        | .found user =>
          match state.Speakers.assign user.Id true with
          | none => none
          | some speakers =>
            match setChannelState p args.ChannelId { state with Speakers := speakers } with
            | .error _ => some (ephemeral p "Failed to grant speaking privileges.")
            | .ok p' =>
              some (inChannel p' ("@" ++ username ++ " has been granted speaking privileges."))
        | _ => none

/-- The handler of `/stick revoke`; `none` is a run-time panic (a nil `user` with a nil
error). -/
def executeRevoke (p : Plugin) (args : CommandArgs) (params : List String) :
    Option CommandResult :=
  match params with
  | [] => some (ephemeral p "Usage: `/stick revoke @username`")
  | param0 :: _ =>
    let username := trimPrefixStr param0 "@"
    match p.API.GetUserByUsername username with
    | .failed => some (ephemeral p ("User @" ++ username ++ " not found."))
    | user =>
      match getChannelState p args.ChannelId with
      | .error _ => some (ephemeral p "Failed to get channel state.")
      | .ok state =>
        match user with
        | .found user =>
          let state := { state with Speakers := state.Speakers.delete user.Id }
          let state := { state with QASlots := state.QASlots.delete user.Id }
          match setChannelState p args.ChannelId state with
          | .error _ => some (ephemeral p "Failed to revoke speaking privileges.")
          | .ok p' =>
            some (inChannel p'
              ("@" ++ username ++ " has had their speaking privileges revoked."))
        | _ => none

/-- The handler of `/stick qa-grant`; `none` is a run-time panic (a nil `user` with a nil
error, or a write to a nil map). -/
def executeQAGrant (p : Plugin) (args : CommandArgs) (params : List String) :
    Option CommandResult :=
  match params with
  | [] => some (ephemeral p "Usage: `/stick qa-grant @username [count]`")
  | param0 :: rest =>
    let username := trimPrefixStr param0 "@"
    match p.API.GetUserByUsername username with
    | .failed => some (ephemeral p ("User @" ++ username ++ " not found."))
    | user =>
      let slots : Option Int :=
        match rest with
        | [] => some 1
        | param1 :: _ =>
          match atoi param1 with
          | none => none
          | some parsed => if parsed < 1 then none else some parsed
      match slots with
      | none => some (ephemeral p "Invalid slot count. Must be a positive number.")
      | some slots =>
        match getChannelState p args.ChannelId with
        | .error _ => some (ephemeral p "Failed to get channel state.")
        | .ok state =>
          match user with
          | .found user =>
            match state.QASlots.assign user.Id slots with
            | none => none
            | some qaSlots =>
              match setChannelState p args.ChannelId { state with QASlots := qaSlots } with
              | .error _ => some (ephemeral p "Failed to grant Q&A slots.")
              | .ok p' =>
                let slotText := if slots > 1 then "slots" else "slot"
                some (inChannel p'
                  ("@" ++ username ++ " has been granted " ++ toString slots ++ " Q&A " ++
                    slotText ++ "."))
          | _ => none

/-- The argument loop of `executeSettle`, from the seconds and targets read so far: a
parameter starting with `@` is a target, any other one is the seconds when it is an integer
from 1 to 300 and is skipped otherwise. -/
def settleParams : List String → Int × List String → Int × List String
  | [], acc => acc
  | param :: rest, (seconds, targetUsernames) =>
    if hasPrefixStr param "@" then
      settleParams rest (seconds, targetUsernames ++ [trimPrefixStr param "@"])
    else
      match atoi param with
      | some parsed =>
        if parsed > 0 ∧ parsed ≤ 300 then settleParams rest (parsed, targetUsernames)
        else settleParams rest (seconds, targetUsernames)
      | none => settleParams rest (seconds, targetUsernames)

/-- The handler of `/settle`, run when `model.GetMillis()` is `now`.  The response text for
one target and the one for several targets are one branch here, `strings.Join` of a single
name being that name. -/
def executeSettle (p : Plugin) (args : CommandArgs) (params : List String) (now : Int) :
    CommandResult :=
  match canBypassTalkingStick p args.UserId args.ChannelId with
  | (_, some _) => ephemeral p "Failed to check permissions."
  | (false, none) => ephemeral p "Only administrators can use the settle command."
  | (true, none) =>
    let (seconds, targetUsernames) := settleParams params (20, [])
    match getChannelState p args.ChannelId with
    | .error _ => ephemeral p "Failed to get channel state."
    | .ok state =>
      let previousMode := state.Mode
      let state :=
        { state with SettleUntil := wrapInt64 (now + seconds * 1000),
                     PreviousMode := previousMode }
      let state :=
        if targetUsernames.length = 0 then
          { state with SettleAgents := some ["all"], Mode := ModeLocked }
        else { state with SettleAgents := some targetUsernames }
      match setChannelState p args.ChannelId state with
      | .error _ => ephemeral p "Failed to set settle state."
      | .ok p' =>
        let deferred : Option DeferredRestore :=
          if targetUsernames.length = 0 then some ⟨seconds, args.ChannelId⟩ else none
        let issuerUsername :=
          match p'.API.GetUser args.UserId with
          | .found issuer => issuer.Username
          | _ => "Someone"
        let text :=
          if targetUsernames.length = 0 then
            issuerUsername ++ " has settled the channel for " ++ toString seconds ++ " seconds"
          else
            issuerUsername ++ " has settled @" ++ String.intercalate ", @" targetUsernames ++
              " for " ++ toString seconds ++ " seconds"
        ⟨⟨CommandResponseTypeInChannel, text⟩, p', deferred⟩

/-- The body of the goroutine started by `executeSettle`, after its sleep: the automatic
restore of the previous mode. -/
def settleRestore (p : Plugin) (channelID : String) : Plugin :=
  match getChannelState p channelID with
  | .error _ => p
  | .ok currentState =>
    if currentState.SettleUntil > 0 then
      let currentState :=
        { currentState with Mode := currentState.PreviousMode, SettleUntil := 0,
                            SettleAgents := some [] }
      match setChannelState p channelID currentState with
      | .error _ => p
      | .ok p' => p'
    else p

/-- The table `validModes` of `executeMode`: the value kept for a mode, `false` for a mode
that is no key. -/
def validModes (mode : ChannelMode) : Bool :=
  mode = ModeOpen || mode = ModeSpeakersOnly || mode = ModeQA || mode = ModeLocked

/-- The table `modeDescriptions` of `executeMode`; a mode that is no key gives the empty
string. -/
def modeDescriptions (mode : ChannelMode) : String :=
  if mode = ModeOpen then "everyone can post"
  else if mode = ModeSpeakersOnly then "only granted speakers can post"
  else if mode = ModeQA then "speakers and Q&A participants can post"
  else if mode = ModeLocked then "only administrators can post"
  else ""

/-- The handler of `/stick mode`. -/
def executeMode (p : Plugin) (args : CommandArgs) (params : List String) : CommandResult :=
  match params with
  | [] => ephemeral p "Usage: `/stick mode [open|speakers|qa|locked]`"
  | param0 :: _ =>
    let mode : ChannelMode := param0
    if !validModes mode then ephemeral p "Invalid mode. Options: open, speakers, qa, locked"
    else
      match getChannelState p args.ChannelId with
      | .error _ => ephemeral p "Failed to get channel state."
      | .ok state =>
        match setChannelState p args.ChannelId { state with Mode := mode } with
        | .error _ => ephemeral p "Failed to set channel mode."
        | .ok p' =>
          inChannel p'
            ("Channel mode set to **" ++ mode ++ "** (" ++ modeDescriptions mode ++ ").")

/-- The text `executeSettleStatus` builds for an active settle from the settle agents and the
remaining seconds. -/
def settleStatusText (settleAgents : List String) (remainingSeconds : Int) : String :=
  match settleAgents with
  | [agent] =>
    if agent = "all" then
      "Channel settled for " ++ toString remainingSeconds ++ " more seconds (all agents)"
    else "@" ++ agent ++ " settled for " ++ toString remainingSeconds ++ " more seconds"
  | agents =>
    "@" ++ String.intercalate ", @" agents ++ " settled for " ++ toString remainingSeconds ++
      " more seconds"

/-- The handler of `/settle status`, run when `model.GetMillis()` is `now`.  The `int64`
subtraction wraps and the division rounds toward zero, as in Go. -/
def executeSettleStatus (p : Plugin) (args : CommandArgs) (now : Int) : CommandResult :=
  match getChannelState p args.ChannelId with
  | .error _ => ephemeral p "Failed to get channel state."
  | .ok state =>
    if state.SettleUntil = 0 ∨ now ≥ state.SettleUntil then
      ephemeral p "Channel is not currently settled."
    else
      let remainingMs := wrapInt64 (state.SettleUntil - now)
      let remainingSeconds := Int.tdiv remainingMs 1000
      ephemeral p (settleStatusText (state.SettleAgents.getD []) remainingSeconds)

/-! ## `server/plugin.go`: the command dispatch -/

def helpResponse (p : Plugin) : CommandResult :=
  ephemeral p
    ("### Talking Stick Commands\n\n" ++
     "**Grant/Revoke Speaking Privileges:**\n" ++
     "- `/stick grant @username` - Grant speaking privileges\n" ++
     "- `/stick revoke @username` - Revoke speaking privileges\n" ++
     "- `/stick list` - List current speakers\n\n" ++
     "**Channel Modes:**\n" ++
     "- `/stick mode open` - Everyone can post (default)\n" ++
     "- `/stick mode speakers` - Only granted speakers can post\n" ++
     "- `/stick mode qa` - Speakers + Q&A participants can post\n" ++
     "- `/stick mode locked` - Only admins can post\n\n" ++
     "**Q&A Mode:**\n" ++
     "- `/stick qa-grant @username [count]` - Grant question slots (default: 1)\n\n" ++
     "**Help:**\n" ++
     "- `/stick help` - Show this help message\n\n" ++
     "**Note:** Use `/settle` command for circuit breaker functionality " ++
     "(see `/settle help`)\n")

def settleHelpResponse (p : Plugin) : CommandResult :=
  ephemeral p
    ("### Settle Command\n\n" ++
     "Temporarily suppress agent responses to break doom loops.\n\n" ++
     "**Usage:**\n" ++
     "- `/settle` - Settle all agents for 20 seconds (default)\n" ++
     "- `/settle 45` - Settle all agents for 45 seconds\n" ++
     "- `/settle @telos` - Settle specific agent for 20 seconds\n" ++
     "- `/settle 30 @telos @aurora` - Settle specific agents for 30 seconds\n" ++
     "- `/settle status` - Check current settle state\n\n" ++
     "**Notes:**\n" ++
     "- Only administrators can use this command\n" ++
     "- Maximum settle duration: 300 seconds (5 minutes)\n" ++
     "- Responses from settled agents will vanish completely\n" ++
     "- Settle expires silently (no announcement)\n")

/-- The dispatch of a command line, run when `model.GetMillis()` is `now`; `none` is a
run-time panic in a handler.  The handler of `/stick list` ranges over Go maps, whose order
is not fixed, and is taken as the parameter `executeList`. -/
def ExecuteCommand (p : Plugin) (args : CommandArgs) (now : Int)
    (executeList : Plugin → CommandArgs → CommandResult) : Option CommandResult :=
  match stringsFields args.Command with
  | [] => some (helpResponse p)
  | first :: rest =>
    let trigger := trimPrefixStr first "/"
    if trigger = "settle" then
      match rest with
      | [] => some (executeSettle p args rest now)
      | second :: _ =>
        if second = "status" then some (executeSettleStatus p args now)
        else if second = "help" then some (settleHelpResponse p)
        else some (executeSettle p args rest now)
    else
      match rest with
      | [] => some (helpResponse p)
      | command :: params =>
        if command = "grant" then executeGrant p args params
        else if command = "revoke" then executeRevoke p args params
        else if command = "list" then some (executeList p args)
        else if command = "mode" then some (executeMode p args params)
        else if command = "qa-grant" then executeQAGrant p args params
        else if command = "help" then some (helpResponse p)
        else some (helpResponse p)

/-! ## Observations and sample data -/

/-- The record kept in the store for a channel, if there is one and it decodes. -/
def savedState (p : Plugin) (channelID : String) : Option ChannelState :=
  match p.API.kv (channelKey channelID) with
  | some data => jsonUnmarshal data
  | none => none

/-- Whether the hook admitted the post: it returned the post and no rejection reason. -/
def HookResult.admitted (r : HookResult) : Bool :=
  r.post.isSome && r.reason == ""

/-- A server with a system administrator `alice` (ID `admin1`) and two plain members,
`agentx` (ID `u1`) and `bob` (ID `u2`), over the given store contents; every store access
succeeds. -/
def sampleAPI (kv : String → Option Bytes) : API where
  GetUser := fun id =>
    if id = "admin1" then .found ⟨"admin1", "alice", false, "system_user system_admin"⟩
    else if id = "u1" then .found ⟨"u1", "agentx", false, "system_user"⟩
    else if id = "u2" then .found ⟨"u2", "bob", false, "system_user"⟩
    else .failed
  GetUserByUsername := fun name =>
    if name = "alice" then .found ⟨"admin1", "alice", false, "system_user system_admin"⟩
    else if name = "agentx" then .found ⟨"u1", "agentx", false, "system_user"⟩
    else if name = "bob" then .found ⟨"u2", "bob", false, "system_user"⟩
    else .failed
  GetChannelMember := fun _ _ => .found ⟨false⟩
  GetChannel := fun _ => .found ⟨"team1"⟩
  GetTeamMember := fun _ _ => .found ⟨false⟩
  kv := kv
  kvGetFails := fun _ => false
  kvSetFails := fun _ => false

/-- A state in the given mode in which `u1` is the only speaker and `u1` and `u2` hold
`slots` question slots each. -/
def sampleState (mode : ChannelMode) (slots : Int) : ChannelState where
  Mode := mode
  Speakers := .entries (fun k => if k = "u1" then some true else none)
  QASlots := .entries (fun k => if k = "u1" ∨ k = "u2" then some slots else none)
  SettleUntil := 0
  SettleAgents := some []
  PreviousMode := ""

/-- A store that holds the given state for channel `c1` and nothing else. -/
def sampleKV (state : ChannelState) : String → Option Bytes :=
  fun k => if k = "channel_c1" then some (jsonMarshal state) else none

/-- The plugin with no configuration loaded, over `sampleAPI`. -/
def samplePlugin (kv : String → Option Bytes) : Plugin where
  API := sampleAPI kv
  configuration := none

/-- The plugin after the given state was written for the channel: one key of the store is
replaced, everything else is as before. -/
def withChannelState (p : Plugin) (channelID : String) (state : ChannelState) : Plugin :=
  { p with API := { p.API with
      kv := fun k => if k = channelKey channelID then some (jsonMarshal state) else p.API.kv k } }

/-- The plugin over `sampleAPI` with every bypass enabled and one suppression phrase. -/
def suppressingPlugin (kv : String → Option Bytes) : Plugin where
  API := sampleAPI kv
  configuration := some
    { AllowSystemAdmins := true, AllowTeamAdmins := true, AllowChannelAdmins := true,
      AllowBots := true, SuppressionPhrases := "as an ai" }

/-- The plugin of the sample server after `alice` ran `/settle 30 @agentx` at time 1000 in
the open channel `c1`. -/
def targetedSettlePlugin : Plugin :=
  (executeSettle (samplePlugin (sampleKV (sampleState ModeOpen 0)))
    ⟨"admin1", "c1", "/settle 30 @agentx"⟩ ["30", "@agentx"] 1000).plugin

/-- The verdicts of the hook on posts handled one after the other, each on the store the
one before it left: `true` for an admitted post. -/
def postVerdicts (p : Plugin) : List Post → List Bool
  | [] => []
  | post :: rest =>
    (MessageWillBePosted p (some post)).admitted ::
      postVerdicts (MessageWillBePosted p (some post)).plugin rest

/-- The sample server with one more user, the bot `helper` (ID `bot1`), who holds no
administrator role and is no channel or team administrator. -/
def botAPI (kv : String → Option Bytes) : API :=
  { sampleAPI kv with
    GetUser := fun id =>
      if id = "bot1" then .found ⟨"bot1", "helper", true, "system_user"⟩
      else (sampleAPI kv).GetUser id }

/-- The plugin with no configuration loaded, over `botAPI`. -/
def botPlugin (kv : String → Option Bytes) : Plugin where
  API := botAPI kv
  configuration := none

/-- Every question-slot count kept in the store is at least zero. -/
def SlotsNonneg (p : Plugin) : Prop :=
  ∀ channelID st, savedState p channelID = some st →
    ∀ k v, st.QASlots.lookup k = some v → 0 ≤ v

/-- The plugin of the sample server after `alice` ran `/settle 1` at time 1000 in channel
`c1`, then in Q&A mode: the channel is locked until 2000 and a restore is due then. -/
def firstSettlePlugin : Plugin :=
  (executeSettle (samplePlugin (sampleKV (sampleState ModeQA 0)))
    ⟨"admin1", "c1", "/settle 1"⟩ ["1"] 1000).plugin

/-- The plugin `firstSettlePlugin` after `alice` ran `/settle 60` at time 1500, while the
first settle was still active. -/
def secondSettlePlugin : Plugin :=
  (executeSettle firstSettlePlugin ⟨"admin1", "c1", "/settle 60"⟩ ["60"] 1500).plugin

/-- The plugin over `sampleAPI` with the given configuration loaded. -/
def configuredPlugin (c : configuration) (kv : String → Option Bytes) : Plugin where
  API := sampleAPI kv
  configuration := some c

/-! ## Basic facts -/

theorem canBypassTalkingStick_error (p : Plugin) (userID channelID : String) :
    (canBypassTalkingStick p userID channelID).2 = none := by
  unfold canBypassTalkingStick
  dsimp only
  repeat' split
  all_goals rfl

theorem getChannelState_present {p : Plugin} {channelID : String} {st : ChannelState}
    (h : getChannelState p channelID = .ok st) :
    (∃ f, st.Speakers = .entries f) ∧ (∃ g, st.QASlots = .entries g) := by
  unfold getChannelState at h
  split at h
  · exact absurd h (by simp)
  · simp only [Except.ok.injEq] at h
    subst h
    exact ⟨⟨_, rfl⟩, ⟨_, rfl⟩⟩
  · split at h
    · exact absurd h (by simp)
    · rename_i s _
      simp only [Except.ok.injEq] at h
      subst h
      cases hs : s.Speakers <;> cases hq : s.QASlots <;> cases ha : s.SettleAgents <;>
        simp [hs, hq, ha, GoMap.make]

theorem setChannelState_ok {p : Plugin} {channelID : String} (state : ChannelState)
    (h : p.API.kvSetFails (channelKey channelID) = false) :
    setChannelState p channelID state = .ok (withChannelState p channelID state) := by
  simp [setChannelState, API.KVSet, h, withChannelState]

theorem savedState_withChannelState (p : Plugin) (channelID : String) (state : ChannelState) :
    savedState (withChannelState p channelID state) channelID = some state := by
  simp [savedState, withChannelState, jsonMarshal, jsonUnmarshal]

theorem getChannelState_kvGetFails {p : Plugin} {channelID : String} {st : ChannelState}
    (h : getChannelState p channelID = .ok st) :
    p.API.kvGetFails (channelKey channelID) = false := by
  cases hf : p.API.kvGetFails (channelKey channelID)
  · rfl
  · simp [getChannelState, API.KVGet, hf] at h

/-- Reading back a state that was written with its two maps present: the state itself, a nil
list of settle agents having become the empty list. -/
theorem getChannelState_withChannelState_repair (p : Plugin) (channelID : String)
    (state : ChannelState) {f : String → Option Bool} {g : String → Option Int}
    (hget : p.API.kvGetFails (channelKey channelID) = false)
    (hs : state.Speakers = .entries f) (hq : state.QASlots = .entries g) :
    getChannelState (withChannelState p channelID state) channelID =
      .ok { state with SettleAgents := some (state.SettleAgents.getD []) } := by
  obtain ⟨mode, speakers, qaSlots, settleUntil, settleAgents, previousMode⟩ := state
  simp only at hs hq
  subst hs hq
  cases settleAgents <;>
    simp [getChannelState, API.KVGet, withChannelState, hget, jsonMarshal, jsonUnmarshal]

/-- Reading back a state that was written: the state itself, when its collections are
present. -/
theorem getChannelState_withChannelState {p : Plugin} {channelID : String}
    {state : ChannelState} {f : String → Option Bool} {g : String → Option Int}
    {l : List String} (hget : p.API.kvGetFails (channelKey channelID) = false)
    (hs : state.Speakers = .entries f) (hq : state.QASlots = .entries g)
    (ha : state.SettleAgents = some l) :
    getChannelState (withChannelState p channelID state) channelID = .ok state := by
  rw [getChannelState_withChannelState_repair p channelID state hget hs hq]
  obtain ⟨mode, speakers, qaSlots, settleUntil, settleAgents, previousMode⟩ := state
  simp only at ha
  subst ha
  rfl

/-! ## The message gate -/

/-- C9: in `locked` mode the post of a poster who cannot bypass is rejected and nothing is
written, whatever the speakers and the question slots hold for the poster. -/
theorem locked_denies_unconditionally (p : Plugin) (post : Post) (st : ChannelState)
    (hsys : post.IsSystemMessage = false)
    (hst : getChannelState p post.ChannelId = .ok st)
    (hmode : st.Mode = ModeLocked)
    (hby : (canBypassTalkingStick p post.UserId post.ChannelId).1 = false) :
    (MessageWillBePosted p (some post)).post = none ∧
    (MessageWillBePosted p (some post)).reason ≠ "" ∧
    (MessageWillBePosted p (some post)).plugin = p := by
  unfold MessageWillBePosted
  by_cases hsup : suppressed (getConfiguration p) post.Message = true
  · simp [hsys, hsup, DismissPostError]
  · simp [hsys, hsup, hst, hby, hmode, ModeLocked, ModeOpen, ModeSpeakersOnly, ModeQA]

/-- Witness of C9: `u1` is a speaker and holds three slots, and is rejected in a locked
channel. -/
theorem locked_denies_unconditionally_witness :
    ((sampleState ModeLocked 3).Speakers.lookup "u1" = some true ∧
      (sampleState ModeLocked 3).QASlots.lookup "u1" = some 3) ∧
    (MessageWillBePosted (samplePlugin (sampleKV (sampleState ModeLocked 3)))
        (some ⟨"u1", "c1", "hello", ""⟩)).post = none ∧
    (MessageWillBePosted (samplePlugin (sampleKV (sampleState ModeLocked 3)))
        (some ⟨"u1", "c1", "hello", ""⟩)).reason ≠ "" ∧
    (MessageWillBePosted (samplePlugin (sampleKV (sampleState ModeLocked 3)))
        (some ⟨"u1", "c1", "hello", ""⟩)).plugin =
      samplePlugin (sampleKV (sampleState ModeLocked 3)) :=
  ⟨by decide,
    locked_denies_unconditionally (samplePlugin (sampleKV (sampleState ModeLocked 3)))
      ⟨"u1", "c1", "hello", ""⟩ (sampleState ModeLocked 3) (by decide) (by rfl) (by rfl)
      (by decide)⟩

/-- The suppression filter lowers letters outside ASCII too: the phrase `désolé` dismisses
the message `DÉSOLÉ`, also for a poster who can bypass. -/
theorem suppressed_lowers_unicode :
    stringsToLower "DÉSOLÉ" = "désolé" ∧
    suppressed ⟨true, true, true, true, "désolé"⟩ "DÉSOLÉ" = true ∧
    (MessageWillBePosted
      (configuredPlugin ⟨true, true, true, true, "désolé"⟩ (sampleKV (sampleState ModeOpen 0)))
      (some ⟨"admin1", "c1", "DÉSOLÉ", ""⟩)).reason = DismissPostError := by
  decide

/-- C2, as amended: a poster who can bypass is admitted, and nothing is written, for every
configuration, every content of the store (also one that fails to load) and every
non-system post whose message holds none of the configured suppression phrases. -/
theorem bypass_always_admitted (p : Plugin) (post : Post)
    (hsys : post.IsSystemMessage = false)
    (hsup : suppressed (getConfiguration p) post.Message = false)
    (hby : (canBypassTalkingStick p post.UserId post.ChannelId).1 = true) :
    MessageWillBePosted p (some post) = ⟨some post, "", p⟩ := by
  unfold MessageWillBePosted
  simp only [hsys, hsup, hby, Bool.false_eq_true, if_false, if_true]
  split <;> rfl

/-- Witness of C2 as amended: the administrator posts in a locked channel. -/
theorem bypass_always_admitted_witness :
    MessageWillBePosted (suppressingPlugin (sampleKV (sampleState ModeLocked 0)))
        (some ⟨"admin1", "c1", "please continue", ""⟩) =
      ⟨some ⟨"admin1", "c1", "please continue", ""⟩, "",
        suppressingPlugin (sampleKV (sampleState ModeLocked 0))⟩ :=
  bypass_always_admitted (suppressingPlugin (sampleKV (sampleState ModeLocked 0)))
    ⟨"admin1", "c1", "please continue", ""⟩ (by decide) (by decide) (by decide)

/-- C2 as stated fails: the administrator `admin1` can bypass, the post is not a system
post, and yet the hook returns no post and the dismissal reason, because the message holds
the configured suppression phrase. -/
theorem bypass_suppressed_counterexample :
    (canBypassTalkingStick (suppressingPlugin (sampleKV (sampleState ModeOpen 0)))
        "admin1" "c1").1 = true ∧
    Post.IsSystemMessage ⟨"admin1", "c1", "As an AI, I agree", ""⟩ = false ∧
    (MessageWillBePosted (suppressingPlugin (sampleKV (sampleState ModeOpen 0)))
        (some ⟨"admin1", "c1", "As an AI, I agree", ""⟩)).post = none ∧
    (MessageWillBePosted (suppressingPlugin (sampleKV (sampleState ModeOpen 0)))
        (some ⟨"admin1", "c1", "As an AI, I agree", ""⟩)).reason = DismissPostError := by
  decide

/-- C1, the code at the failing input: after `/settle 30 @agentx` the stored state names
`agentx` as settled until 31000 in a channel left open, `agentx` (ID `u1`) cannot bypass, and
the post of `agentx` is admitted all the same. -/
theorem targeted_settle_not_enforced :
    (savedState targetedSettlePlugin "c1").map
        (fun s => (s.Mode, s.SettleAgents, s.SettleUntil)) =
      some ("open", some ["agentx"], 31000) ∧
    (canBypassTalkingStick targetedSettlePlugin "u1" "c1").1 = false ∧
    (MessageWillBePosted targetedSettlePlugin (some ⟨"u1", "c1", "hello", ""⟩)).post =
      some ⟨"u1", "c1", "hello", ""⟩ ∧
    (MessageWillBePosted targetedSettlePlugin (some ⟨"u1", "c1", "hello", ""⟩)).reason = "" := by
  decide

/-! ## The settle command -/

theorem wrapInt64_of_range {x : Int} (h0 : -2 ^ 63 ≤ x) (h1 : x < 2 ^ 63) : wrapInt64 x = x := by
  unfold wrapInt64
  rw [Int.emod_eq_of_lt (by omega) (by omega)]
  omega

theorem settleParams_seconds_range (params : List String) (acc : Int × List String)
    (h : 1 ≤ acc.1 ∧ acc.1 ≤ 300) :
    1 ≤ (settleParams params acc).1 ∧ (settleParams params acc).1 ≤ 300 := by
  induction params generalizing acc with
  | nil => simpa [settleParams] using h
  | cons param rest ih =>
    obtain ⟨seconds, targets⟩ := acc
    unfold settleParams
    split
    · exact ih _ h
    · split
      · split
        · rename_i parsed _ hp
          exact ih _ ⟨by omega, hp.2⟩
        · exact ih _ h
      · exact ih _ h

theorem settleParams_no_targets (params : List String) (acc : Int × List String)
    (h : ∀ t ∈ params, hasPrefixStr t "@" = false) :
    (settleParams params acc).2 = acc.2 := by
  induction params generalizing acc with
  | nil => simp [settleParams]
  | cons param rest ih =>
    obtain ⟨seconds, targets⟩ := acc
    have hp : hasPrefixStr param "@" = false := h param (by simp)
    have hr : ∀ t ∈ rest, hasPrefixStr t "@" = false := fun t ht => h t (by simp [ht])
    unfold settleParams
    simp only [hp, Bool.false_eq_true, if_false]
    split
    · split
      · exact ih _ hr
      · exact ih _ hr
    · exact ih _ hr

/-- Tokens that are targets, are no integers, or are integers outside 1 to 300 leave the
seconds as they were. -/
theorem settleParams_seconds_kept (params : List String) (acc : Int × List String)
    (h : ∀ t ∈ params, hasPrefixStr t "@" = true ∨ atoi t = none ∨
      ∃ n, atoi t = some n ∧ ¬ (n > 0 ∧ n ≤ 300)) :
    (settleParams params acc).1 = acc.1 := by
  induction params generalizing acc with
  | nil => simp [settleParams]
  | cons param rest ih =>
    obtain ⟨seconds, targets⟩ := acc
    have hr : ∀ t ∈ rest, hasPrefixStr t "@" = true ∨ atoi t = none ∨
        ∃ n, atoi t = some n ∧ ¬ (n > 0 ∧ n ≤ 300) := fun t ht => h t (by simp [ht])
    unfold settleParams
    split
    · exact ih _ hr
    · rename_i hpre
      split
      · rename_i parsed hparsed
        split
        · rename_i hin
          rcases h param (by simp) with h1 | h1 | ⟨n, h1, h2⟩
          · exact absurd h1 hpre
          · rw [h1] at hparsed; exact absurd hparsed (by simp)
          · rw [h1] at hparsed
            simp only [Option.some.injEq] at hparsed
            subst hparsed
            exact absurd hin h2
        · exact ih _ hr
      · exact ih _ hr

/-- What a permitted caller's `/settle` writes, when the state loads and the write
succeeds. -/
theorem executeSettle_plugin {p : Plugin} {args : CommandArgs} {st : ChannelState}
    (params : List String) (now : Int)
    (hby : (canBypassTalkingStick p args.UserId args.ChannelId).1 = true)
    (hst : getChannelState p args.ChannelId = .ok st)
    (hset : p.API.kvSetFails (channelKey args.ChannelId) = false) :
    (executeSettle p args params now).plugin =
      withChannelState p args.ChannelId
        (if (settleParams params (20, [])).2.length = 0 then
          { st with SettleUntil := wrapInt64 (now + (settleParams params (20, [])).1 * 1000),
                    PreviousMode := st.Mode, SettleAgents := some ["all"], Mode := ModeLocked }
        else
          { st with SettleUntil := wrapInt64 (now + (settleParams params (20, [])).1 * 1000),
                    PreviousMode := st.Mode,
                    SettleAgents := some (settleParams params (20, [])).2 }) ∧
    (executeSettle p args params now).deferred =
      (if (settleParams params (20, [])).2.length = 0 then
        some ⟨(settleParams params (20, [])).1, args.ChannelId⟩ else none) ∧
    (executeSettle p args params now).response.ResponseType = CommandResponseTypeInChannel := by
  have hb : canBypassTalkingStick p args.UserId args.ChannelId = (true, none) :=
    Prod.ext hby (canBypassTalkingStick_error _ _ _)
  unfold executeSettle
  rcases hsp : settleParams params (20, []) with ⟨seconds, targets⟩
  simp only [hb, hst, hsp]
  by_cases hlen : targets.length = 0
  · simp [hlen, setChannelState_ok _ hset]
  · simp [hlen, setChannelState_ok _ hset]

/-- C6: a permitted caller's `/settle` without targets, on a state in mode `m`, writes the
loaded state with `PreviousMode = m`, `Mode = locked`, `SettleUntil = now + 1000 * s` and
`SettleAgents = ["all"]`, where `s` is the effective duration, which lies in 1 to 300; the
speakers and the question slots are the loaded ones. -/
theorem settle_all_activation (p : Plugin) (args : CommandArgs) (params : List String)
    (now : Int) (st : ChannelState)
    (hby : (canBypassTalkingStick p args.UserId args.ChannelId).1 = true)
    (hno : ∀ t ∈ params, hasPrefixStr t "@" = false)
    (hst : getChannelState p args.ChannelId = .ok st)
    (hset : p.API.kvSetFails (channelKey args.ChannelId) = false)
    (h0 : 0 ≤ now) (h1 : now + 300000 < 2 ^ 63) :
    (1 ≤ (settleParams params (20, [])).1 ∧ (settleParams params (20, [])).1 ≤ 300) ∧
    (executeSettle p args params now).plugin =
      withChannelState p args.ChannelId
        { st with PreviousMode := st.Mode, Mode := ModeLocked,
                  SettleUntil := now + 1000 * (settleParams params (20, [])).1,
                  SettleAgents := some ["all"] } := by
  have hr := settleParams_seconds_range params (20, []) (by decide)
  have ht : (settleParams params (20, [])).2.length = 0 := by
    rw [settleParams_no_targets params _ hno]; rfl
  refine ⟨hr, ?_⟩
  rw [(executeSettle_plugin params now hby hst hset).1, if_pos ht,
    wrapInt64_of_range (by omega) (by omega), Int.mul_comm]

/-- Witness of C6: `alice` runs `/settle 45` at time 1000 in a channel in Q&A mode. -/
theorem settle_all_activation_witness :
    (1 ≤ (settleParams ["45"] (20, [])).1 ∧ (settleParams ["45"] (20, [])).1 ≤ 300) ∧
    (executeSettle (samplePlugin (sampleKV (sampleState ModeQA 2)))
        ⟨"admin1", "c1", "/settle 45"⟩ ["45"] 1000).plugin =
      withChannelState (samplePlugin (sampleKV (sampleState ModeQA 2))) "c1"
        { sampleState ModeQA 2 with PreviousMode := ModeQA, Mode := ModeLocked,
                                    SettleUntil := 1000 + 1000 * (settleParams ["45"] (20, [])).1,
                                    SettleAgents := some ["all"] } :=
  settle_all_activation (samplePlugin (sampleKV (sampleState ModeQA 2)))
    ⟨"admin1", "c1", "/settle 45"⟩ ["45"] 1000 (sampleState ModeQA 2) (by decide) (by decide)
    (by rfl) (by rfl) (by decide) (by decide)

/-- C5: a permitted caller's `/settle` without targets starts the restore goroutine, and
when that goroutine runs on the store the command left, the channel state it leaves is the
state loaded before the command with `SettleUntil = 0` and no settle agents: the mode, the
speakers and the question slots are the ones from before the command. -/
theorem settle_all_round_trip (p : Plugin) (args : CommandArgs) (params : List String)
    (now : Int) (st : ChannelState)
    (hby : (canBypassTalkingStick p args.UserId args.ChannelId).1 = true)
    (hno : ∀ t ∈ params, hasPrefixStr t "@" = false)
    (hst : getChannelState p args.ChannelId = .ok st)
    (hset : p.API.kvSetFails (channelKey args.ChannelId) = false)
    (h0 : 0 ≤ now) (h1 : now + 300000 < 2 ^ 63) :
    (executeSettle p args params now).deferred =
      some ⟨(settleParams params (20, [])).1, args.ChannelId⟩ ∧
    getChannelState (settleRestore (executeSettle p args params now).plugin args.ChannelId)
        args.ChannelId =
      .ok { st with SettleUntil := 0, SettleAgents := some [], PreviousMode := st.Mode } := by
  have hr := settleParams_seconds_range params (20, []) (by decide)
  have ht : (settleParams params (20, [])).2.length = 0 := by
    rw [settleParams_no_targets params _ hno]; rfl
  obtain ⟨hplug, hdef, -⟩ := executeSettle_plugin params now hby hst hset
  obtain ⟨⟨f, hf⟩, ⟨g, hg⟩⟩ := getChannelState_present hst
  have hget := getChannelState_kvGetFails hst
  refine ⟨by rw [hdef, if_pos ht], ?_⟩
  rw [hplug, if_pos ht, wrapInt64_of_range (by omega) (by omega)]
  have hload : getChannelState (withChannelState p args.ChannelId
      { st with SettleUntil := now + (settleParams params (20, [])).1 * 1000,
                PreviousMode := st.Mode, SettleAgents := some ["all"], Mode := ModeLocked })
      args.ChannelId = .ok
      { st with SettleUntil := now + (settleParams params (20, [])).1 * 1000,
                PreviousMode := st.Mode, SettleAgents := some ["all"], Mode := ModeLocked } :=
    getChannelState_withChannelState hget hf hg rfl
  have hpos : now + (settleParams params (20, [])).1 * 1000 > 0 := by omega
  unfold settleRestore
  simp only [hload, hpos, if_true]
  rw [setChannelState_ok _ (by exact hset)]
  exact getChannelState_withChannelState (by exact hget) hf hg rfl

/-- Witness of C5: `alice` runs `/settle 1` at time 1000 in a channel in Q&A mode. -/
theorem settle_all_round_trip_witness :
    (executeSettle (samplePlugin (sampleKV (sampleState ModeQA 2)))
        ⟨"admin1", "c1", "/settle 1"⟩ ["1"] 1000).deferred =
      some ⟨(settleParams ["1"] (20, [])).1, "c1"⟩ ∧
    getChannelState
        (settleRestore (executeSettle (samplePlugin (sampleKV (sampleState ModeQA 2)))
          ⟨"admin1", "c1", "/settle 1"⟩ ["1"] 1000).plugin "c1") "c1" =
      .ok { sampleState ModeQA 2 with SettleUntil := 0, SettleAgents := some [],
                                      PreviousMode := ModeQA } :=
  settle_all_round_trip (samplePlugin (sampleKV (sampleState ModeQA 2)))
    ⟨"admin1", "c1", "/settle 1"⟩ ["1"] 1000 (sampleState ModeQA 2) (by decide) (by decide)
    (by rfl) (by rfl) (by decide) (by decide)

/-- C3, as amended: when the only numeric token of a permitted caller's `/settle` is an
integer above 300, the token is skipped and the duration stays at the default of 20
seconds: the saved `SettleUntil` is `now + 20000`. -/
theorem settle_above_max_keeps_default (p : Plugin) (args : CommandArgs)
    (params : List String) (now : Int) (st : ChannelState) (tok : String) (n : Int)
    (hby : (canBypassTalkingStick p args.UserId args.ChannelId).1 = true)
    (hst : getChannelState p args.ChannelId = .ok st)
    (hset : p.API.kvSetFails (channelKey args.ChannelId) = false)
    (hmem : tok ∈ params) (htok : atoi tok = some n) (hn : 300 < n)
    (hothers : ∀ t ∈ params, t ≠ tok → hasPrefixStr t "@" = true ∨ atoi t = none)
    (h0 : 0 ≤ now) (h1 : now + 300000 < 2 ^ 63) :
    (settleParams params (20, [])).1 = 20 ∧
    (savedState (executeSettle p args params now).plugin args.ChannelId).map
        (fun s => s.SettleUntil) = some (now + 20000) := by
  have hs : (settleParams params (20, [])).1 = 20 := by
    apply settleParams_seconds_kept
    intro t ht
    by_cases h : t = tok
    · subst h
      exact Or.inr (Or.inr ⟨n, htok, by omega⟩)
    · rcases hothers t ht h with h' | h'
      · exact Or.inl h'
      · exact Or.inr (Or.inl h')
  refine ⟨hs, ?_⟩
  rw [(executeSettle_plugin params now hby hst hset).1, savedState_withChannelState, hs,
    wrapInt64_of_range (by omega) (by omega)]
  split <;> rfl

/-- Witness of C3 as amended: `alice` runs `/settle 9999` at time 1000. -/
theorem settle_above_max_keeps_default_witness :
    (settleParams ["9999"] (20, [])).1 = 20 ∧
    (savedState (executeSettle (samplePlugin (sampleKV (sampleState ModeOpen 0)))
        ⟨"admin1", "c1", "/settle 9999"⟩ ["9999"] 1000).plugin "c1").map
        (fun s => s.SettleUntil) = some (1000 + 20000) :=
  settle_above_max_keeps_default (samplePlugin (sampleKV (sampleState ModeOpen 0)))
    ⟨"admin1", "c1", "/settle 9999"⟩ ["9999"] 1000 (sampleState ModeOpen 0) "9999" 9999
    (by decide) (by rfl) (by rfl) (by decide) (by decide) (by decide) (by decide) (by decide)
    (by decide)

/-- C3 as stated fails: `/settle 9999` by the administrator at time 1000 saves
`SettleUntil = 1000 + 20000`, not `1000 + 300000`. -/
theorem settle_9999_counterexample :
    (canBypassTalkingStick (samplePlugin (sampleKV (sampleState ModeOpen 0)))
        "admin1" "c1").1 = true ∧
    atoi "9999" = some 9999 ∧
    (savedState (executeSettle (samplePlugin (sampleKV (sampleState ModeOpen 0)))
        ⟨"admin1", "c1", "/settle 9999"⟩ ["9999"] 1000).plugin "c1").map
        (fun s => s.SettleUntil) = some (1000 + 20000) ∧
    (savedState (executeSettle (samplePlugin (sampleKV (sampleState ModeOpen 0)))
        ⟨"admin1", "c1", "/settle 9999"⟩ ["9999"] 1000).plugin "c1").map
        (fun s => s.SettleUntil) ≠ some (1000 + 300000) := by
  decide

/-! ## Question slots -/

/-- One post in Q&A mode by a poster who cannot bypass, is no speaker and has a slot entry
`m`: with `m > 0` the post is admitted and the entry becomes `m - 1`, otherwise the post is
rejected and nothing is written. -/
theorem qa_step {p : Plugin} {post : Post} {st : ChannelState} {g : String → Option Int}
    {m : Int}
    (hsys : post.IsSystemMessage = false)
    (hsup : suppressed (getConfiguration p) post.Message = false)
    (hst : getChannelState p post.ChannelId = .ok st)
    (hset : p.API.kvSetFails (channelKey post.ChannelId) = false)
    (hmode : st.Mode = ModeQA)
    (hby : (canBypassTalkingStick p post.UserId post.ChannelId).1 = false)
    (hsp : st.Speakers.lookup post.UserId ≠ some true)
    (hg : st.QASlots = .entries g) (hslots : g post.UserId = some m) :
    MessageWillBePosted p (some post) =
      if 0 < m then
        ⟨some post, "", withChannelState p post.ChannelId
          { st with QASlots := .entries (fun x => if x = post.UserId then some (m - 1) else g x) }⟩
      else ⟨none, "This channel is in Q&A mode. You do not have a question slot.", p⟩ := by
  have hsp' : (st.Speakers.lookup post.UserId).getD false = false := by
    cases h : st.Speakers.lookup post.UserId with
    | none => rfl
    | some b => cases b with
      | false => rfl
      | true => exact absurd h hsp
  unfold MessageWillBePosted
  simp only [hsys, hsup, hst, hby, hmode, hsp', Bool.false_eq_true, if_false]
  simp only [ModeQA, ModeOpen, ModeSpeakersOnly, hg, GoMap.lookup, hslots, GoMap.assign]
  by_cases hm : 0 < m
  · simp [hm, setChannelState_ok _ hset]
  · simp [hm]

theorem postVerdicts_qa (uid ch : String) (cfg : configuration) (posts : List Post) :
    ∀ (p : Plugin) (st : ChannelState) (m : Int),
      getConfiguration p = cfg →
      getChannelState p ch = .ok st →
      p.API.kvSetFails (channelKey ch) = false →
      st.Mode = ModeQA →
      (canBypassTalkingStick p uid ch).1 = false →
      st.Speakers.lookup uid ≠ some true →
      st.QASlots.lookup uid = some m →
      (∀ q ∈ posts, q.UserId = uid ∧ q.ChannelId = ch ∧ q.IsSystemMessage = false ∧
        suppressed cfg q.Message = false) →
      postVerdicts p posts =
        (List.range posts.length).map (fun (k : Nat) => decide ((k : Int) < m)) := by
  induction posts with
  | nil => intros; rfl
  | cons q rest ih =>
    intro p st m hcfg hst hset hmode hby hsp hslots hposts
    obtain ⟨hu, hc, hsys, hsup⟩ := hposts q (by simp)
    have hrest : ∀ q ∈ rest, q.UserId = uid ∧ q.ChannelId = ch ∧ q.IsSystemMessage = false ∧
        suppressed cfg q.Message = false := fun x hx => hposts x (by simp [hx])
    obtain ⟨⟨f, hf⟩, ⟨g, hg⟩⟩ := getChannelState_present hst
    have hget := getChannelState_kvGetFails hst
    subst hu hc
    have hslots' : g q.UserId = some m := by simpa [hg, GoMap.lookup] using hslots
    have hstep := qa_step hsys (by rw [hcfg]; exact hsup) hst hset hmode hby hsp hg hslots'
    simp only [postVerdicts, List.length_cons, List.range_succ_eq_map, List.map_cons,
      List.map_map]
    by_cases hm : 0 < m
    · rw [if_pos hm] at hstep
      rw [hstep]
      have hload := getChannelState_withChannelState_repair p q.ChannelId
        { st with QASlots := .entries (fun x => if x = q.UserId then some (m - 1) else g x) }
        hget hf rfl
      have hih := ih (withChannelState p q.ChannelId { st with
          QASlots := .entries (fun x => if x = q.UserId then some (m - 1) else g x) })
        _ (m - 1) hcfg hload hset hmode hby hsp (by simp [GoMap.lookup]) hrest
      rw [hih]
      simp only [HookResult.admitted, Option.isSome_some, beq_self_eq_true, Bool.and_self,
        Nat.cast_zero, hm, decide_True, List.cons.injEq, true_and]
      apply List.map_congr_left
      intro k _
      simp only [Function.comp_apply, Nat.cast_succ, decide_eq_decide]
      omega
    · rw [if_neg hm] at hstep
      rw [hstep]
      have hih := ih p st m hcfg hst hset hmode hby hsp hslots hrest
      rw [hih]
      have h0 : decide (((0 : Nat) : Int) < m) = false := by simpa using hm
      simp only [HookResult.admitted, Option.isSome_none, Bool.false_and, h0, List.cons.injEq,
        true_and]
      apply List.map_congr_left
      intro k _
      simp only [Function.comp_apply, Nat.cast_succ, decide_eq_decide]
      omega

/-- C4, as amended: in Q&A mode a poster who cannot bypass, is no speaker and has `n > 0`
slots, posting messages that hold none of the configured suppression phrases, is
admitted, and the state written is the loaded one with the poster's slots set to `n - 1`;
and of any run of consecutive posts by that poster, handled one after the other from that
state, the post at position `k` (from 0) is admitted exactly when `k < n`: the first `n`
are admitted and every later one is rejected. -/
theorem qa_slots_consumable (p : Plugin) (post : Post) (st : ChannelState) (n : Int)
    (posts : List Post)
    (hsys : post.IsSystemMessage = false)
    (hsup : suppressed (getConfiguration p) post.Message = false)
    (hst : getChannelState p post.ChannelId = .ok st)
    (hset : p.API.kvSetFails (channelKey post.ChannelId) = false)
    (hmode : st.Mode = ModeQA)
    (hby : (canBypassTalkingStick p post.UserId post.ChannelId).1 = false)
    (hsp : st.Speakers.lookup post.UserId ≠ some true)
    (hslots : st.QASlots.lookup post.UserId = some n) (hn : 0 < n)
    (hposts : ∀ q ∈ posts, q.UserId = post.UserId ∧ q.ChannelId = post.ChannelId ∧
      q.IsSystemMessage = false ∧ suppressed (getConfiguration p) q.Message = false) :
    (∃ qaSlots, st.QASlots.assign post.UserId (n - 1) = some qaSlots ∧
      qaSlots.lookup post.UserId = some (n - 1) ∧
      (∀ k, k ≠ post.UserId → qaSlots.lookup k = st.QASlots.lookup k) ∧
      MessageWillBePosted p (some post) =
        ⟨some post, "", withChannelState p post.ChannelId { st with QASlots := qaSlots }⟩) ∧
    postVerdicts p posts =
      (List.range posts.length).map (fun (k : Nat) => decide ((k : Int) < n)) := by
  obtain ⟨-, ⟨g, hg⟩⟩ := getChannelState_present hst
  have hslots' : g post.UserId = some n := by simpa [hg, GoMap.lookup] using hslots
  refine ⟨⟨.entries (fun x => if x = post.UserId then some (n - 1) else g x), ?_, ?_, ?_, ?_⟩,
    postVerdicts_qa post.UserId post.ChannelId (getConfiguration p) posts p st n rfl hst hset
      hmode hby hsp hslots hposts⟩
  · simp [hg, GoMap.assign]
  · simp [GoMap.lookup]
  · intro k hk
    simp [hg, GoMap.lookup, hk]
  · rw [qa_step hsys hsup hst hset hmode hby hsp hg hslots', if_pos hn]

/-- Witness of C4: `u2`, no speaker, holds two slots and posts three times; the verdicts are
admitted, admitted, rejected. -/
theorem qa_slots_consumable_witness :
    ((∃ qaSlots, (sampleState ModeQA 2).QASlots.assign "u2" (2 - 1) = some qaSlots ∧
      qaSlots.lookup "u2" = some (2 - 1) ∧
      (∀ k, k ≠ "u2" → qaSlots.lookup k = (sampleState ModeQA 2).QASlots.lookup k) ∧
      MessageWillBePosted (samplePlugin (sampleKV (sampleState ModeQA 2)))
          (some ⟨"u2", "c1", "question", ""⟩) =
        ⟨some ⟨"u2", "c1", "question", ""⟩, "",
          withChannelState (samplePlugin (sampleKV (sampleState ModeQA 2))) "c1"
            { sampleState ModeQA 2 with QASlots := qaSlots }⟩) ∧
    postVerdicts (samplePlugin (sampleKV (sampleState ModeQA 2)))
        [⟨"u2", "c1", "one", ""⟩, ⟨"u2", "c1", "two", ""⟩, ⟨"u2", "c1", "three", ""⟩] =
      (List.range 3).map (fun (k : Nat) => decide ((k : Int) < 2))) ∧
    postVerdicts (samplePlugin (sampleKV (sampleState ModeQA 2)))
        [⟨"u2", "c1", "one", ""⟩, ⟨"u2", "c1", "two", ""⟩, ⟨"u2", "c1", "three", ""⟩] =
      [true, true, false] :=
  ⟨qa_slots_consumable (samplePlugin (sampleKV (sampleState ModeQA 2)))
      ⟨"u2", "c1", "question", ""⟩ (sampleState ModeQA 2) 2
      [⟨"u2", "c1", "one", ""⟩, ⟨"u2", "c1", "two", ""⟩, ⟨"u2", "c1", "three", ""⟩]
      (by decide) (by decide) (by rfl) (by rfl) (by rfl) (by decide) (by decide) (by decide)
      (by decide) (by decide),
    by decide⟩

/-- C4 as stated fails: in Q&A mode `u2` cannot bypass, is no speaker and holds two slots,
and yet the post is not admitted and no slot is spent, because the message holds the
configured suppression phrase: the hook returns no post and the dismissal reason, the
stored count is still two, and the first of the consecutive posts is rejected. -/
theorem qa_slot_holder_suppressed_counterexample :
    (canBypassTalkingStick (suppressingPlugin (sampleKV (sampleState ModeQA 2))) "u2" "c1").1 =
      false ∧
    (sampleState ModeQA 2).Speakers.lookup "u2" = none ∧
    (sampleState ModeQA 2).QASlots.lookup "u2" = some 2 ∧
    Post.IsSystemMessage ⟨"u2", "c1", "As an AI, I agree", ""⟩ = false ∧
    (MessageWillBePosted (suppressingPlugin (sampleKV (sampleState ModeQA 2)))
        (some ⟨"u2", "c1", "As an AI, I agree", ""⟩)).post = none ∧
    (MessageWillBePosted (suppressingPlugin (sampleKV (sampleState ModeQA 2)))
        (some ⟨"u2", "c1", "As an AI, I agree", ""⟩)).reason = DismissPostError ∧
    (savedState (MessageWillBePosted (suppressingPlugin (sampleKV (sampleState ModeQA 2)))
        (some ⟨"u2", "c1", "As an AI, I agree", ""⟩)).plugin "c1").bind
        (fun s => s.QASlots.lookup "u2") = some 2 ∧
    postVerdicts (suppressingPlugin (sampleKV (sampleState ModeQA 2)))
        [⟨"u2", "c1", "As an AI, I agree", ""⟩, ⟨"u2", "c1", "two", ""⟩,
          ⟨"u2", "c1", "three", ""⟩] = [false, true, true] := by
  decide

/-! ## Speakers and grants -/

/-- One post in speakers-only mode by a poster who cannot bypass. -/
theorem speakers_step {p : Plugin} {post : Post} {st : ChannelState}
    (hsys : post.IsSystemMessage = false)
    (hsup : suppressed (getConfiguration p) post.Message = false)
    (hst : getChannelState p post.ChannelId = .ok st)
    (hmode : st.Mode = ModeSpeakersOnly)
    (hby : (canBypassTalkingStick p post.UserId post.ChannelId).1 = false) :
    MessageWillBePosted p (some post) =
      if (st.Speakers.lookup post.UserId).getD false then ⟨some post, "", p⟩
      else
        ⟨none, "This channel is in speakers-only mode. You do not have speaking privileges.",
          p⟩ := by
  unfold MessageWillBePosted
  simp only [hsys, hsup, hst, hby, hmode, Bool.false_eq_true, if_false]
  simp [ModeOpen, ModeSpeakersOnly]

theorem getD_false_eq_true_iff (o : Option Bool) : o.getD false = true ↔ o = some true := by
  cases o with
  | none => simp
  | some b => cases b <;> simp

/-- What `/stick grant` does for a user that resolves, when the state loads and the write
succeeds. -/
theorem executeGrant_ok {p : Plugin} {args : CommandArgs} {param0 : String}
    {user : User} {st : ChannelState} {f : String → Option Bool} (rest : List String)
    (hu : p.API.GetUserByUsername (trimPrefixStr param0 "@") = .found user)
    (hst : getChannelState p args.ChannelId = .ok st)
    (hset : p.API.kvSetFails (channelKey args.ChannelId) = false)
    (hf : st.Speakers = .entries f) :
    executeGrant p args (param0 :: rest) =
      some (inChannel
        (withChannelState p args.ChannelId
          { st with Speakers := .entries (fun x => if x = user.Id then some true else f x) })
        ("@" ++ trimPrefixStr param0 "@" ++ " has been granted speaking privileges.")) := by
  unfold executeGrant
  simp [hu, hst, hf, GoMap.assign, setChannelState_ok _ hset]

/-- C8, as amended: in speakers-only mode a poster who cannot bypass, posting a message
that holds none of the configured suppression phrases, is admitted exactly when the
speakers hold the poster; and when they do not, the post is rejected, `/stick grant` for
that poster then writes the loaded state with the poster added to the speakers and nothing
else changed, and on that store the same post is admitted. -/
theorem speakers_only_gating (p : Plugin) (post : Post) (st : ChannelState)
    (hsys : post.IsSystemMessage = false)
    (hsup : suppressed (getConfiguration p) post.Message = false)
    (hst : getChannelState p post.ChannelId = .ok st)
    (hmode : st.Mode = ModeSpeakersOnly)
    (hby : (canBypassTalkingStick p post.UserId post.ChannelId).1 = false) :
    ((MessageWillBePosted p (some post)).admitted = true ↔
      st.Speakers.lookup post.UserId = some true) ∧
    (st.Speakers.lookup post.UserId ≠ some true →
      ((MessageWillBePosted p (some post)).post = none ∧
        (MessageWillBePosted p (some post)).reason ≠ "") ∧
      ∀ (args : CommandArgs) (param0 : String) (rest : List String) (user : User),
        args.ChannelId = post.ChannelId →
        p.API.GetUserByUsername (trimPrefixStr param0 "@") = .found user →
        user.Id = post.UserId →
        p.API.kvSetFails (channelKey post.ChannelId) = false →
        ∃ r speakers, executeGrant p args (param0 :: rest) = some r ∧
          st.Speakers.assign post.UserId true = some speakers ∧
          speakers.lookup post.UserId = some true ∧
          (∀ k, k ≠ post.UserId → speakers.lookup k = st.Speakers.lookup k) ∧
          r.plugin = withChannelState p post.ChannelId { st with Speakers := speakers } ∧
          MessageWillBePosted r.plugin (some post) = ⟨some post, "", r.plugin⟩) := by
  have hstep := speakers_step hsys hsup hst hmode hby
  constructor
  · rw [hstep, ← getD_false_eq_true_iff]
    cases (st.Speakers.lookup post.UserId).getD false <;> simp [HookResult.admitted]
  · intro hns
    have hd : (st.Speakers.lookup post.UserId).getD false = false := by
      cases h : (st.Speakers.lookup post.UserId).getD false
      · rfl
      · exact absurd ((getD_false_eq_true_iff _).1 h) hns
    refine ⟨by rw [hstep, hd]; simp, ?_⟩
    intro args param0 rest user hch hu hid hset
    obtain ⟨⟨f, hf⟩, ⟨g, hg⟩⟩ := getChannelState_present hst
    have hget := getChannelState_kvGetFails hst
    rw [← hch] at hst hset
    refine ⟨_, .entries (fun x => if x = post.UserId then some true else f x),
      executeGrant_ok rest hu hst hset hf, ?_, ?_, ?_, ?_, ?_⟩
    · simp [hf, GoMap.assign]
    · simp [GoMap.lookup]
    · intro k hk
      simp [hf, GoMap.lookup, hk]
    · simp [inChannel, hid, hch]
    · simp only [inChannel, hid, hch]
      have hload := getChannelState_withChannelState_repair p post.ChannelId
        { st with Speakers := .entries (fun x => if x = post.UserId then some true else f x) }
        hget rfl hg
      rw [speakers_step (p := withChannelState p post.ChannelId _) hsys hsup hload hmode hby]
      simp [GoMap.lookup]

/-- Witness of C8: `u2` is no speaker and is rejected; after `/stick grant @bob` the post of
`u2` is admitted. -/
theorem speakers_only_gating_witness :
    ((MessageWillBePosted (samplePlugin (sampleKV (sampleState ModeSpeakersOnly 0)))
        (some ⟨"u2", "c1", "hello", ""⟩)).admitted = true ↔
      (sampleState ModeSpeakersOnly 0).Speakers.lookup "u2" = some true) ∧
    ((MessageWillBePosted (samplePlugin (sampleKV (sampleState ModeSpeakersOnly 0)))
        (some ⟨"u2", "c1", "hello", ""⟩)).post = none ∧
      (MessageWillBePosted (samplePlugin (sampleKV (sampleState ModeSpeakersOnly 0)))
        (some ⟨"u2", "c1", "hello", ""⟩)).reason ≠ "") ∧
    ∃ r speakers,
      executeGrant (samplePlugin (sampleKV (sampleState ModeSpeakersOnly 0)))
        ⟨"u1", "c1", "/stick grant @bob"⟩ ("@bob" :: []) = some r ∧
      (sampleState ModeSpeakersOnly 0).Speakers.assign "u2" true = some speakers ∧
      speakers.lookup "u2" = some true ∧
      (∀ k, k ≠ "u2" → speakers.lookup k = (sampleState ModeSpeakersOnly 0).Speakers.lookup k) ∧
      r.plugin = withChannelState (samplePlugin (sampleKV (sampleState ModeSpeakersOnly 0))) "c1"
        { sampleState ModeSpeakersOnly 0 with Speakers := speakers } ∧
      MessageWillBePosted r.plugin (some ⟨"u2", "c1", "hello", ""⟩) =
        ⟨some ⟨"u2", "c1", "hello", ""⟩, "", r.plugin⟩ :=
  ⟨(speakers_only_gating (samplePlugin (sampleKV (sampleState ModeSpeakersOnly 0)))
      ⟨"u2", "c1", "hello", ""⟩ (sampleState ModeSpeakersOnly 0) (by decide) (by decide)
      (by rfl) (by rfl) (by decide)).1,
    ((speakers_only_gating (samplePlugin (sampleKV (sampleState ModeSpeakersOnly 0)))
      ⟨"u2", "c1", "hello", ""⟩ (sampleState ModeSpeakersOnly 0) (by decide) (by decide)
      (by rfl) (by rfl) (by decide)).2 (by decide)).1,
    ((speakers_only_gating (samplePlugin (sampleKV (sampleState ModeSpeakersOnly 0)))
      ⟨"u2", "c1", "hello", ""⟩ (sampleState ModeSpeakersOnly 0) (by decide) (by decide)
      (by rfl) (by rfl) (by decide)).2 (by decide)).2
      ⟨"u1", "c1", "/stick grant @bob"⟩ "@bob" [] ⟨"u2", "bob", false, "system_user"⟩
      rfl (by rfl) rfl (by rfl)⟩

/-- C8 as stated fails: in speakers-only mode `u1` cannot bypass and is a speaker, and yet
the post is not admitted, because the message holds the configured suppression phrase. -/
theorem speaker_suppressed_counterexample :
    (canBypassTalkingStick (suppressingPlugin (sampleKV (sampleState ModeSpeakersOnly 0)))
      "u1" "c1").1 = false ∧
    (sampleState ModeSpeakersOnly 0).Speakers.lookup "u1" = some true ∧
    Post.IsSystemMessage ⟨"u1", "c1", "As an AI, I agree", ""⟩ = false ∧
    (MessageWillBePosted (suppressingPlugin (sampleKV (sampleState ModeSpeakersOnly 0)))
        (some ⟨"u1", "c1", "As an AI, I agree", ""⟩)).admitted = false ∧
    (MessageWillBePosted (suppressingPlugin (sampleKV (sampleState ModeSpeakersOnly 0)))
        (some ⟨"u1", "c1", "As an AI, I agree", ""⟩)).post = none ∧
    (MessageWillBePosted (suppressingPlugin (sampleKV (sampleState ModeSpeakersOnly 0)))
        (some ⟨"u1", "c1", "As an AI, I agree", ""⟩)).reason = DismissPostError := by
  decide

/-- What `/stick revoke` does for a user that resolves, when the state loads and the write
succeeds. -/
theorem executeRevoke_ok {p : Plugin} {args : CommandArgs} {param0 : String}
    {user : User} {st : ChannelState} (rest : List String)
    (hu : p.API.GetUserByUsername (trimPrefixStr param0 "@") = .found user)
    (hst : getChannelState p args.ChannelId = .ok st)
    (hset : p.API.kvSetFails (channelKey args.ChannelId) = false) :
    executeRevoke p args (param0 :: rest) =
      some (inChannel
        (withChannelState p args.ChannelId
          { st with Speakers := st.Speakers.delete user.Id,
                    QASlots := st.QASlots.delete user.Id })
        ("@" ++ trimPrefixStr param0 "@" ++ " has had their speaking privileges revoked.")) := by
  unfold executeRevoke
  simp [hu, hst, setChannelState_ok _ hset]

theorem GoMap.lookup_delete_self {V : Type} (m : GoMap V) (k : String) :
    (m.delete k).lookup k = none := by
  cases m <;> simp [GoMap.delete, GoMap.lookup]

theorem GoMap.lookup_delete_other {V : Type} (m : GoMap V) {k x : String} (h : x ≠ k) :
    (m.delete k).lookup x = m.lookup x := by
  cases m <;> simp [GoMap.delete, GoMap.lookup, h]

theorem GoMap.delete_absent {V : Type} (m : GoMap V) {k : String} (h : m.lookup k = none) :
    m.delete k = m := by
  cases m with
  | nil => rfl
  | entries f =>
    simp only [GoMap.delete, GoMap.entries.injEq]
    funext x
    by_cases hx : x = k
    · subst hx
      simpa [GoMap.lookup] using h.symm
    · simp [hx]

/-- C7: `/stick revoke` for a user that resolves writes a state `s` that is the loaded state
with the user deleted from the speakers and from the question slots: the user is in neither,
every other entry of the two maps, the mode and the settle fields are the loaded ones, and
`s` is the loaded state itself when the user was in neither map; and `/stick grant` for the
user followed by `/stick revoke` for the user leaves a stored state with the user in
neither map. -/
theorem revoke_removes_both (p : Plugin) (args : CommandArgs) (param0 : String)
    (rest : List String) (user : User) (st : ChannelState)
    (hu : p.API.GetUserByUsername (trimPrefixStr param0 "@") = .found user)
    (hst : getChannelState p args.ChannelId = .ok st)
    (hset : p.API.kvSetFails (channelKey args.ChannelId) = false) :
    (∃ r s, executeRevoke p args (param0 :: rest) = some r ∧
      r.response.ResponseType = CommandResponseTypeInChannel ∧
      r.plugin = withChannelState p args.ChannelId s ∧
      s.Speakers.lookup user.Id = none ∧ s.QASlots.lookup user.Id = none ∧
      (∀ k, k ≠ user.Id →
        s.Speakers.lookup k = st.Speakers.lookup k ∧ s.QASlots.lookup k = st.QASlots.lookup k) ∧
      s.Mode = st.Mode ∧ s.SettleUntil = st.SettleUntil ∧ s.SettleAgents = st.SettleAgents ∧
      s.PreviousMode = st.PreviousMode ∧
      (st.Speakers.lookup user.Id = none → st.QASlots.lookup user.Id = none → s = st)) ∧
    (∃ g r s, executeGrant p args (param0 :: rest) = some g ∧
      (∃ sg, savedState g.plugin args.ChannelId = some sg ∧
        sg.Speakers.lookup user.Id = some true) ∧
      executeRevoke g.plugin args (param0 :: rest) = some r ∧
      savedState r.plugin args.ChannelId = some s ∧
      s.Speakers.lookup user.Id = none ∧ s.QASlots.lookup user.Id = none) := by
  obtain ⟨⟨f, hf⟩, ⟨q, hq⟩⟩ := getChannelState_present hst
  have hget := getChannelState_kvGetFails hst
  constructor
  · refine ⟨_, { st with Speakers := st.Speakers.delete user.Id,
                         QASlots := st.QASlots.delete user.Id },
      executeRevoke_ok rest hu hst hset, rfl, rfl, GoMap.lookup_delete_self _ _,
      GoMap.lookup_delete_self _ _, ?_, rfl, rfl, rfl, rfl, ?_⟩
    · intro k hk
      exact ⟨GoMap.lookup_delete_other _ hk, GoMap.lookup_delete_other _ hk⟩
    · intro h1 h2
      simp only [GoMap.delete_absent _ h1, GoMap.delete_absent _ h2]
  · have hload := getChannelState_withChannelState_repair p args.ChannelId
      { st with Speakers := .entries (fun x => if x = user.Id then some true else f x) }
      hget rfl hq
    have hgrant := executeGrant_ok rest hu hst hset hf
    have hrevoke := executeRevoke_ok
      (p := withChannelState p args.ChannelId { st with
        Speakers := .entries (fun x => if x = user.Id then some true else f x) })
      rest hu hload hset
    refine ⟨_, _, _, hgrant, ⟨_, savedState_withChannelState _ _ _, by simp [GoMap.lookup]⟩,
      hrevoke, savedState_withChannelState _ _ _, ?_, ?_⟩
    · dsimp only
      exact GoMap.lookup_delete_self _ _
    · dsimp only
      exact GoMap.lookup_delete_self _ _

/-- Witness of C7: `/stick revoke @agentx` in a channel where `u1` is a speaker and holds
three slots. -/
theorem revoke_removes_both_witness :
    (∃ r s, executeRevoke (samplePlugin (sampleKV (sampleState ModeQA 3)))
        ⟨"u2", "c1", "/stick revoke @agentx"⟩ ("@agentx" :: []) = some r ∧
      r.response.ResponseType = CommandResponseTypeInChannel ∧
      r.plugin = withChannelState (samplePlugin (sampleKV (sampleState ModeQA 3))) "c1" s ∧
      s.Speakers.lookup "u1" = none ∧ s.QASlots.lookup "u1" = none ∧
      (∀ k, k ≠ "u1" →
        s.Speakers.lookup k = (sampleState ModeQA 3).Speakers.lookup k ∧
        s.QASlots.lookup k = (sampleState ModeQA 3).QASlots.lookup k) ∧
      s.Mode = ModeQA ∧ s.SettleUntil = 0 ∧ s.SettleAgents = some [] ∧
      s.PreviousMode = "" ∧
      ((sampleState ModeQA 3).Speakers.lookup "u1" = none →
        (sampleState ModeQA 3).QASlots.lookup "u1" = none → s = sampleState ModeQA 3)) ∧
    (∃ g r s, executeGrant (samplePlugin (sampleKV (sampleState ModeQA 3)))
        ⟨"u2", "c1", "/stick revoke @agentx"⟩ ("@agentx" :: []) = some g ∧
      (∃ sg, savedState g.plugin "c1" = some sg ∧ sg.Speakers.lookup "u1" = some true) ∧
      executeRevoke g.plugin ⟨"u2", "c1", "/stick revoke @agentx"⟩ ("@agentx" :: []) = some r ∧
      savedState r.plugin "c1" = some s ∧
      s.Speakers.lookup "u1" = none ∧ s.QASlots.lookup "u1" = none) :=
  revoke_removes_both (samplePlugin (sampleKV (sampleState ModeQA 3)))
    ⟨"u2", "c1", "/stick revoke @agentx"⟩ "@agentx" [] ⟨"u1", "agentx", false, "system_user"⟩
    (sampleState ModeQA 3) (by rfl) (by rfl) (by rfl)

/-! ## Granting question slots -/

/-- What `/stick qa-grant` does for a user that resolves and a count that is left out
(`slots = 1`) or is an integer `slots ≥ 1`, when the state loads and the write succeeds. -/
theorem executeQAGrant_ok {p : Plugin} {args : CommandArgs} {param0 : String}
    {user : User} {st : ChannelState} {g : String → Option Int} (rest : List String)
    (slots : Int)
    (hu : p.API.GetUserByUsername (trimPrefixStr param0 "@") = .found user)
    (hst : getChannelState p args.ChannelId = .ok st)
    (hset : p.API.kvSetFails (channelKey args.ChannelId) = false)
    (hg : st.QASlots = .entries g)
    (hrest : (rest = [] ∧ slots = 1) ∨
      ∃ tok tl, rest = tok :: tl ∧ atoi tok = some slots ∧ 1 ≤ slots) :
    executeQAGrant p args (param0 :: rest) =
      some (inChannel
        (withChannelState p args.ChannelId
          { st with QASlots := .entries (fun x => if x = user.Id then some slots else g x) })
        ("@" ++ trimPrefixStr param0 "@" ++ " has been granted " ++ toString slots ++ " Q&A " ++
          (if slots > 1 then "slots" else "slot") ++ ".")) := by
  unfold executeQAGrant
  rcases hrest with ⟨hr, hs⟩ | ⟨tok, tl, hr, htok, hs⟩
  · subst hr hs
    simp only [hu, hst, hg, GoMap.assign, setChannelState_ok _ hset]
  · subst hr
    have hs' : ¬ slots < 1 := by omega
    simp only [hu, htok, hs', if_false, hst, hg, GoMap.assign, setChannelState_ok _ hset]

/-- C10: for a user that resolves, `/stick qa-grant` with a count token that is no integer
or is an integer below 1 answers the caller alone with an error and writes nothing; with no
count token it writes the loaded state with the user's slots set to 1; with a count token
that is an integer `c ≥ 1` it writes the loaded state with the user's slots set to `c`,
whatever they were, every other entry and field being the loaded one. -/
theorem qa_grant_validation (p : Plugin) (args : CommandArgs) (param0 : String) (user : User)
    (st : ChannelState)
    (hu : p.API.GetUserByUsername (trimPrefixStr param0 "@") = .found user)
    (hst : getChannelState p args.ChannelId = .ok st)
    (hset : p.API.kvSetFails (channelKey args.ChannelId) = false) :
    (∀ (tok : String) (rest : List String),
      (atoi tok = none ∨ ∃ c, atoi tok = some c ∧ c < 1) →
      executeQAGrant p args (param0 :: tok :: rest) =
        some (ephemeral p "Invalid slot count. Must be a positive number.")) ∧
    (∃ r qaSlots, executeQAGrant p args [param0] = some r ∧
      r.response.ResponseType = CommandResponseTypeInChannel ∧
      st.QASlots.assign user.Id 1 = some qaSlots ∧
      r.plugin = withChannelState p args.ChannelId { st with QASlots := qaSlots }) ∧
    (∀ (tok : String) (rest : List String) (c : Int), atoi tok = some c → 1 ≤ c →
      ∃ r qaSlots, executeQAGrant p args (param0 :: tok :: rest) = some r ∧
        r.response.ResponseType = CommandResponseTypeInChannel ∧
        st.QASlots.assign user.Id c = some qaSlots ∧
        qaSlots.lookup user.Id = some c ∧
        (∀ k, k ≠ user.Id → qaSlots.lookup k = st.QASlots.lookup k) ∧
        r.plugin = withChannelState p args.ChannelId { st with QASlots := qaSlots }) := by
  obtain ⟨-, ⟨g, hg⟩⟩ := getChannelState_present hst
  refine ⟨?_, ?_, ?_⟩
  · intro tok rest h
    unfold executeQAGrant
    rcases h with h | ⟨c, h, hc⟩
    · simp [hu, h]
    · simp [hu, h, hc]
  · exact ⟨_, .entries (fun x => if x = user.Id then some 1 else g x),
      executeQAGrant_ok [] 1 hu hst hset hg (Or.inl ⟨rfl, rfl⟩), rfl,
      by simp [hg, GoMap.assign], rfl⟩
  · intro tok rest c htok hc
    refine ⟨_, .entries (fun x => if x = user.Id then some c else g x),
      executeQAGrant_ok (tok :: rest) c hu hst hset hg (Or.inr ⟨tok, rest, rfl, htok, hc⟩), rfl,
      by simp [hg, GoMap.assign], by simp [GoMap.lookup], ?_, rfl⟩
    intro k hk
    simp [hg, GoMap.lookup, hk]

/-- Witness of C10: `/stick qa-grant @bob` with the counts `0`, `-1` and `abc`, with no
count, and with the count `5` where `u2` held two slots. -/
theorem qa_grant_validation_witness :
    (executeQAGrant (samplePlugin (sampleKV (sampleState ModeQA 2)))
        ⟨"u1", "c1", "/stick qa-grant @bob 0"⟩ ["@bob", "0"] =
      some (ephemeral (samplePlugin (sampleKV (sampleState ModeQA 2)))
        "Invalid slot count. Must be a positive number.") ∧
    executeQAGrant (samplePlugin (sampleKV (sampleState ModeQA 2)))
        ⟨"u1", "c1", "/stick qa-grant @bob -1"⟩ ["@bob", "-1"] =
      some (ephemeral (samplePlugin (sampleKV (sampleState ModeQA 2)))
        "Invalid slot count. Must be a positive number.") ∧
    executeQAGrant (samplePlugin (sampleKV (sampleState ModeQA 2)))
        ⟨"u1", "c1", "/stick qa-grant @bob abc"⟩ ["@bob", "abc"] =
      some (ephemeral (samplePlugin (sampleKV (sampleState ModeQA 2)))
        "Invalid slot count. Must be a positive number.")) ∧
    (∃ r qaSlots, executeQAGrant (samplePlugin (sampleKV (sampleState ModeQA 2)))
        ⟨"u1", "c1", "/stick qa-grant @bob"⟩ ["@bob"] = some r ∧
      r.response.ResponseType = CommandResponseTypeInChannel ∧
      (sampleState ModeQA 2).QASlots.assign "u2" 1 = some qaSlots ∧
      r.plugin = withChannelState (samplePlugin (sampleKV (sampleState ModeQA 2))) "c1"
        { sampleState ModeQA 2 with QASlots := qaSlots }) ∧
    (∃ r qaSlots, executeQAGrant (samplePlugin (sampleKV (sampleState ModeQA 2)))
        ⟨"u1", "c1", "/stick qa-grant @bob"⟩ ["@bob", "5"] = some r ∧
      r.response.ResponseType = CommandResponseTypeInChannel ∧
      (sampleState ModeQA 2).QASlots.assign "u2" 5 = some qaSlots ∧
      qaSlots.lookup "u2" = some 5 ∧
      (∀ k, k ≠ "u2" → qaSlots.lookup k = (sampleState ModeQA 2).QASlots.lookup k) ∧
      r.plugin = withChannelState (samplePlugin (sampleKV (sampleState ModeQA 2))) "c1"
        { sampleState ModeQA 2 with QASlots := qaSlots }) :=
  ⟨⟨(qa_grant_validation (samplePlugin (sampleKV (sampleState ModeQA 2)))
        ⟨"u1", "c1", "/stick qa-grant @bob 0"⟩ "@bob" ⟨"u2", "bob", false, "system_user"⟩
        (sampleState ModeQA 2) (by rfl) (by rfl) (by rfl)).1 "0" []
        (Or.inr ⟨0, by decide, by decide⟩),
      (qa_grant_validation (samplePlugin (sampleKV (sampleState ModeQA 2)))
        ⟨"u1", "c1", "/stick qa-grant @bob -1"⟩ "@bob" ⟨"u2", "bob", false, "system_user"⟩
        (sampleState ModeQA 2) (by rfl) (by rfl) (by rfl)).1 "-1" []
        (Or.inr ⟨-1, by decide, by decide⟩),
      (qa_grant_validation (samplePlugin (sampleKV (sampleState ModeQA 2)))
        ⟨"u1", "c1", "/stick qa-grant @bob abc"⟩ "@bob" ⟨"u2", "bob", false, "system_user"⟩
        (sampleState ModeQA 2) (by rfl) (by rfl) (by rfl)).1 "abc" [] (Or.inl (by decide))⟩,
    (qa_grant_validation (samplePlugin (sampleKV (sampleState ModeQA 2)))
      ⟨"u1", "c1", "/stick qa-grant @bob"⟩ "@bob" ⟨"u2", "bob", false, "system_user"⟩
      (sampleState ModeQA 2) (by rfl) (by rfl) (by rfl)).2.1,
    (qa_grant_validation (samplePlugin (sampleKV (sampleState ModeQA 2)))
      ⟨"u1", "c1", "/stick qa-grant @bob"⟩ "@bob" ⟨"u2", "bob", false, "system_user"⟩
      (sampleState ModeQA 2) (by rfl) (by rfl) (by rfl)).2.2 "5" [] 5 (by decide) (by decide)⟩

/-! ## Who may bypass and who may settle -/

/-- C11, the code at the failing input: with the default configuration the bot `bot1` holds
no administrator role and is no channel or team administrator, and yet `/settle` run by it
at time 1000 is answered in the channel and writes the locked state for channel `c1`. -/
theorem settle_by_bot_writes :
    (botAPI (sampleKV (sampleState ModeOpen 0))).GetUser "bot1" =
      .found ⟨"bot1", "helper", true, "system_user"⟩ ∧
    stringsContains "system_user" "system_admin" = false ∧
    (botAPI (sampleKV (sampleState ModeOpen 0))).GetChannelMember "c1" "bot1" =
      .found ⟨false⟩ ∧
    (botAPI (sampleKV (sampleState ModeOpen 0))).GetTeamMember "team1" "bot1" =
      .found ⟨false⟩ ∧
    (executeSettle (botPlugin (sampleKV (sampleState ModeOpen 0)))
      ⟨"bot1", "c1", "/settle"⟩ [] 1000).response.ResponseType =
      CommandResponseTypeInChannel ∧
    (savedState (executeSettle (botPlugin (sampleKV (sampleState ModeOpen 0)))
      ⟨"bot1", "c1", "/settle"⟩ [] 1000).plugin "c1").map
        (fun s => (s.Mode, s.SettleAgents, s.SettleUntil, s.PreviousMode)) =
      some ("locked", some ["all"], 21000, "open") := by
  refine ⟨rfl, by decide, rfl, rfl, by decide, by decide⟩

/-- C12: when the four lookups succeed, the bypass verdict under a loaded configuration `c`
is true exactly when the user is a bot and `c.AllowBots` is on, or the roles of the user hold
`system_admin` and `c.AllowSystemAdmins` is on, or the user is scheme administrator of the
channel and `c.AllowChannelAdmins` is on, or the user is scheme administrator of the team of
the channel and `c.AllowTeamAdmins` is on; with no configuration loaded the four toggles
count as on; and under a loaded configuration with the four toggles off the verdict is false
for every user, whatever the lookups give. -/
theorem bypass_decision_table (p : Plugin) (userID channelID : String) (user : User)
    (member : ChannelMember) (channel : Channel) (teamMember : TeamMember)
    (hu : p.API.GetUser userID = .found user)
    (hm : p.API.GetChannelMember channelID userID = .found member)
    (hc : p.API.GetChannel channelID = .found channel)
    (ht : p.API.GetTeamMember channel.TeamId userID = .found teamMember) :
    (∀ c : configuration, p.configuration = some c →
      ((canBypassTalkingStick p userID channelID).1 = true ↔
        (user.IsBot = true ∧ c.AllowBots = true) ∨
        (stringsContains user.Roles "system_admin" = true ∧ c.AllowSystemAdmins = true) ∨
        (member.SchemeAdmin = true ∧ c.AllowChannelAdmins = true) ∨
        (teamMember.SchemeAdmin = true ∧ c.AllowTeamAdmins = true))) ∧
    (p.configuration = none →
      ((canBypassTalkingStick p userID channelID).1 = true ↔
        user.IsBot = true ∨ stringsContains user.Roles "system_admin" = true ∨
        member.SchemeAdmin = true ∨ teamMember.SchemeAdmin = true)) ∧
    (∀ (q : Plugin) (c : configuration) (u ch : String), q.configuration = some c →
      c.AllowBots = false → c.AllowSystemAdmins = false →
      c.AllowChannelAdmins = false → c.AllowTeamAdmins = false →
      (canBypassTalkingStick q u ch).1 = false) := by
  have key : (canBypassTalkingStick p userID channelID).1 = true ↔
      (user.IsBot = true ∧ (getConfiguration p).AllowBots = true) ∨
      (stringsContains user.Roles "system_admin" = true ∧
        (getConfiguration p).AllowSystemAdmins = true) ∨
      (member.SchemeAdmin = true ∧ (getConfiguration p).AllowChannelAdmins = true) ∨
      (teamMember.SchemeAdmin = true ∧ (getConfiguration p).AllowTeamAdmins = true) := by
    unfold canBypassTalkingStick
    simp only [hu, hm, hc, ht]
    cases (getConfiguration p).AllowBots <;> cases user.IsBot <;>
      cases (getConfiguration p).AllowSystemAdmins <;>
      cases stringsContains user.Roles "system_admin" <;>
      cases (getConfiguration p).AllowChannelAdmins <;> cases member.SchemeAdmin <;>
      cases (getConfiguration p).AllowTeamAdmins <;> cases teamMember.SchemeAdmin <;> simp
  refine ⟨?_, ?_, ?_⟩
  · intro c hcfg
    have hget : getConfiguration p = c := by simp [getConfiguration, hcfg]
    rw [key, hget]
  · intro hcfg
    have h1 : (getConfiguration p).AllowBots = true := by simp [getConfiguration, hcfg]
    have h2 : (getConfiguration p).AllowSystemAdmins = true := by
      simp [getConfiguration, hcfg]
    have h3 : (getConfiguration p).AllowChannelAdmins = true := by
      simp [getConfiguration, hcfg]
    have h4 : (getConfiguration p).AllowTeamAdmins = true := by simp [getConfiguration, hcfg]
    rw [key, h1, h2, h3, h4]
    simp
  · intro q c u ch hcfg h1 h2 h3 h4
    have hget : getConfiguration q = c := by simp [getConfiguration, hcfg]
    unfold canBypassTalkingStick
    simp only [hget, h1, h2, h3, h4]
    repeat' split
    all_goals simp at *

/-- Witness of C12: the system administrator `admin1` in channel `c1` of the sample server,
under the configuration with only `AllowSystemAdmins` on, where the verdict is true, and
under the configuration with only `AllowSystemAdmins` off, where it is false. -/
theorem bypass_decision_table_witness :
    ((canBypassTalkingStick
        (configuredPlugin ⟨true, false, false, false, ""⟩ (sampleKV (sampleState ModeOpen 0)))
        "admin1" "c1").1 = true ↔
      (false = true ∧ false = true) ∨
      (stringsContains "system_user system_admin" "system_admin" = true ∧ true = true) ∨
      (false = true ∧ false = true) ∨ (false = true ∧ false = true)) ∧
    (canBypassTalkingStick
        (configuredPlugin ⟨true, false, false, false, ""⟩ (sampleKV (sampleState ModeOpen 0)))
        "admin1" "c1").1 = true ∧
    ((canBypassTalkingStick
        (configuredPlugin ⟨false, true, true, true, ""⟩ (sampleKV (sampleState ModeOpen 0)))
        "admin1" "c1").1 = true ↔
      (false = true ∧ true = true) ∨
      (stringsContains "system_user system_admin" "system_admin" = true ∧ false = true) ∨
      (false = true ∧ true = true) ∨ (false = true ∧ true = true)) ∧
    (canBypassTalkingStick
        (configuredPlugin ⟨false, true, true, true, ""⟩ (sampleKV (sampleState ModeOpen 0)))
        "admin1" "c1").1 = false ∧
    (canBypassTalkingStick
        (configuredPlugin ⟨false, false, false, false, ""⟩ (sampleKV (sampleState ModeOpen 0)))
        "admin1" "c1").1 = false :=
  ⟨(bypass_decision_table
      (configuredPlugin ⟨true, false, false, false, ""⟩ (sampleKV (sampleState ModeOpen 0)))
      "admin1" "c1" ⟨"admin1", "alice", false, "system_user system_admin"⟩ ⟨false⟩ ⟨"team1"⟩
      ⟨false⟩ (by rfl) (by rfl) (by rfl) (by rfl)).1 ⟨true, false, false, false, ""⟩ rfl,
    by decide,
    (bypass_decision_table
      (configuredPlugin ⟨false, true, true, true, ""⟩ (sampleKV (sampleState ModeOpen 0)))
      "admin1" "c1" ⟨"admin1", "alice", false, "system_user system_admin"⟩ ⟨false⟩ ⟨"team1"⟩
      ⟨false⟩ (by rfl) (by rfl) (by rfl) (by rfl)).1 ⟨false, true, true, true, ""⟩ rfl,
    by decide,
    (bypass_decision_table
      (configuredPlugin ⟨false, true, true, true, ""⟩ (sampleKV (sampleState ModeOpen 0)))
      "admin1" "c1" ⟨"admin1", "alice", false, "system_user system_admin"⟩ ⟨false⟩ ⟨"team1"⟩
      ⟨false⟩ (by rfl) (by rfl) (by rfl) (by rfl)).2.2
      (configuredPlugin ⟨false, false, false, false, ""⟩ (sampleKV (sampleState ModeOpen 0)))
      ⟨false, false, false, false, ""⟩ "admin1" "c1" rfl rfl rfl rfl rfl⟩

/-- C15: the error `canBypassTalkingStick` returns is always nil, and whenever a lookup it
makes fails or returns nothing the verdict is false: the user lookup; the channel member
lookup, made when the user is not let through as a bot or by the `system_admin` role; the
channel lookup, made when moreover the member is not let through as channel administrator
and `AllowTeamAdmins` is on; and the team member lookup, made when the channel was found. -/
theorem bypass_fails_closed (p : Plugin) (userID channelID : String) :
    (canBypassTalkingStick p userID channelID).2 = none ∧
    ((p.API.GetUser userID = .failed ∨ p.API.GetUser userID = .missing) →
      canBypassTalkingStick p userID channelID = (false, none)) ∧
    (∀ user, p.API.GetUser userID = .found user →
      ((getConfiguration p).AllowBots && user.IsBot) = false →
      ((getConfiguration p).AllowSystemAdmins && stringsContains user.Roles "system_admin") =
        false →
      ((p.API.GetChannelMember channelID userID = .failed ∨
          p.API.GetChannelMember channelID userID = .missing) →
        canBypassTalkingStick p userID channelID = (false, none)) ∧
      (∀ member, p.API.GetChannelMember channelID userID = .found member →
        ((getConfiguration p).AllowChannelAdmins && member.SchemeAdmin) = false →
        (getConfiguration p).AllowTeamAdmins = true →
        ((p.API.GetChannel channelID = .failed ∨ p.API.GetChannel channelID = .missing) →
          canBypassTalkingStick p userID channelID = (false, none)) ∧
        (∀ channel, p.API.GetChannel channelID = .found channel →
          (p.API.GetTeamMember channel.TeamId userID = .failed ∨
            p.API.GetTeamMember channel.TeamId userID = .missing) →
          canBypassTalkingStick p userID channelID = (false, none)))) := by
  refine ⟨canBypassTalkingStick_error p userID channelID, ?_, ?_⟩
  · intro h
    unfold canBypassTalkingStick
    rcases h with h | h <;> simp [h]
  · intro user hu hbot hadmin
    refine ⟨?_, ?_⟩
    · intro h
      unfold canBypassTalkingStick
      rcases h with h | h <;> simp [hu, hbot, hadmin, h]
    · intro member hm hch hteam
      refine ⟨?_, ?_⟩
      · intro h
        unfold canBypassTalkingStick
        rcases h with h | h <;> simp [hu, hbot, hadmin, hm, hch, hteam, h]
      · intro channel hc h
        unfold canBypassTalkingStick
        rcases h with h | h <;> simp [hu, hbot, hadmin, hm, hch, hteam, hc, h]

/-! ## The message gate, continued -/

/-- C14, as amended: in Q&A mode a poster who cannot bypass and is a speaker, posting a
message that holds none of the configured suppression phrases, is admitted and nothing is
written, whatever the question slots hold for the poster, so the slot count stays as it
is. -/
theorem speakers_never_spend_slots (p : Plugin) (post : Post) (st : ChannelState)
    (hsys : post.IsSystemMessage = false)
    (hsup : suppressed (getConfiguration p) post.Message = false)
    (hst : getChannelState p post.ChannelId = .ok st)
    (hmode : st.Mode = ModeQA)
    (hby : (canBypassTalkingStick p post.UserId post.ChannelId).1 = false)
    (hsp : st.Speakers.lookup post.UserId = some true) :
    MessageWillBePosted p (some post) = ⟨some post, "", p⟩ ∧
    (MessageWillBePosted p (some post)).plugin = p ∧
    getChannelState (MessageWillBePosted p (some post)).plugin post.ChannelId = .ok st := by
  have h : MessageWillBePosted p (some post) = ⟨some post, "", p⟩ := by
    unfold MessageWillBePosted
    simp only [hsys, hsup, hst, hby, hmode, hsp, Bool.false_eq_true, if_false]
    simp [ModeQA, ModeOpen, ModeSpeakersOnly]
  rw [h]
  exact ⟨rfl, rfl, hst⟩

/-- Witness of C14: the speaker `u1` posts in Q&A mode while holding three slots, holding
none, and holding a negative count. -/
theorem speakers_never_spend_slots_witness :
    (MessageWillBePosted (samplePlugin (sampleKV (sampleState ModeQA 3)))
        (some ⟨"u1", "c1", "hello", ""⟩) =
      ⟨some ⟨"u1", "c1", "hello", ""⟩, "", samplePlugin (sampleKV (sampleState ModeQA 3))⟩ ∧
    (MessageWillBePosted (samplePlugin (sampleKV (sampleState ModeQA 3)))
        (some ⟨"u1", "c1", "hello", ""⟩)).plugin =
      samplePlugin (sampleKV (sampleState ModeQA 3)) ∧
    getChannelState (MessageWillBePosted (samplePlugin (sampleKV (sampleState ModeQA 3)))
        (some ⟨"u1", "c1", "hello", ""⟩)).plugin "c1" = .ok (sampleState ModeQA 3)) ∧
    (MessageWillBePosted (samplePlugin (sampleKV (sampleState ModeQA 0)))
        (some ⟨"u1", "c1", "hello", ""⟩)).admitted = true ∧
    (MessageWillBePosted (samplePlugin (sampleKV (sampleState ModeQA (-1))))
        (some ⟨"u1", "c1", "hello", ""⟩)).admitted = true :=
  ⟨speakers_never_spend_slots (samplePlugin (sampleKV (sampleState ModeQA 3)))
      ⟨"u1", "c1", "hello", ""⟩ (sampleState ModeQA 3) (by decide) (by decide) (by rfl)
      (by rfl) (by decide) (by decide),
    by decide, by decide⟩

/-- C14 as stated fails: in Q&A mode `u1` cannot bypass and is a speaker, and yet the post
is not admitted, because the message holds the configured suppression phrase: the hook
returns no post and the dismissal reason. -/
theorem qa_speaker_suppressed_counterexample :
    (canBypassTalkingStick (suppressingPlugin (sampleKV (sampleState ModeQA 3))) "u1" "c1").1 =
      false ∧
    (sampleState ModeQA 3).Speakers.lookup "u1" = some true ∧
    Post.IsSystemMessage ⟨"u1", "c1", "As an AI, I agree", ""⟩ = false ∧
    (MessageWillBePosted (suppressingPlugin (sampleKV (sampleState ModeQA 3)))
        (some ⟨"u1", "c1", "As an AI, I agree", ""⟩)).post = none ∧
    (MessageWillBePosted (suppressingPlugin (sampleKV (sampleState ModeQA 3)))
        (some ⟨"u1", "c1", "As an AI, I agree", ""⟩)).reason = DismissPostError := by
  decide

/-! ## Loading a channel state -/

/-- C20: for a channel with no stored key whose read does not fail, `getChannelState`
returns, with no error, the state in mode `open` with empty speakers, empty question slots,
`SettleUntil = 0` and the nil list of settle agents; and for a stored record that decodes,
the loaded state has its speakers, question slots and settle agents present, empty where the
record had none, and is the record in everything else. -/
theorem fresh_default_state (p : Plugin) (channelID : String)
    (hget : p.API.kvGetFails (channelKey channelID) = false) :
    (p.API.kv (channelKey channelID) = none →
      getChannelState p channelID =
        .ok { Mode := ModeOpen, Speakers := GoMap.make, QASlots := GoMap.make,
              SettleUntil := 0, SettleAgents := none, PreviousMode := "" } ∧
      ∀ k, (GoMap.make : GoMap Bool).lookup k = none ∧ (GoMap.make : GoMap Int).lookup k = none) ∧
    (∀ record, p.API.kv (channelKey channelID) = some (.json record) →
      ∃ st, getChannelState p channelID = .ok st ∧
        (record.Speakers = .nil → st.Speakers = GoMap.make) ∧
        (record.QASlots = .nil → st.QASlots = GoMap.make) ∧
        (record.SettleAgents = none → st.SettleAgents = some []) ∧
        (∀ f, record.Speakers = .entries f → st.Speakers = .entries f) ∧
        (∀ g, record.QASlots = .entries g → st.QASlots = .entries g) ∧
        (∀ l, record.SettleAgents = some l → st.SettleAgents = some l) ∧
        st.Mode = record.Mode ∧ st.SettleUntil = record.SettleUntil ∧
        st.PreviousMode = record.PreviousMode) := by
  refine ⟨?_, ?_⟩
  · intro hkv
    refine ⟨by simp [getChannelState, API.KVGet, hget, hkv], fun k => ⟨rfl, rfl⟩⟩
  · intro record hkv
    obtain ⟨mode, speakers, qaSlots, settleUntil, settleAgents, previousMode⟩ := record
    cases speakers <;> cases qaSlots <;> cases settleAgents <;>
      simp [getChannelState, API.KVGet, hget, hkv, jsonUnmarshal]

/-- Witness of C20: a channel with no key, and a channel whose record has none of the three
collections, on the sample server. -/
theorem fresh_default_state_witness :
    getChannelState (samplePlugin (sampleKV (sampleState ModeQA 1))) "c2" =
      .ok { Mode := ModeOpen, Speakers := GoMap.make, QASlots := GoMap.make,
            SettleUntil := 0, SettleAgents := none, PreviousMode := "" } ∧
    ∃ st, getChannelState
        (samplePlugin (sampleKV ⟨ModeSpeakersOnly, .nil, .nil, 0, none, ""⟩)) "c1" = .ok st ∧
      st.Speakers = GoMap.make ∧ st.QASlots = GoMap.make ∧ st.SettleAgents = some [] ∧
      st.Mode = ModeSpeakersOnly :=
  ⟨((fresh_default_state (samplePlugin (sampleKV (sampleState ModeQA 1))) "c2" (by rfl)).1
      (by rfl)).1,
    ((fresh_default_state (samplePlugin (sampleKV ⟨ModeSpeakersOnly, .nil, .nil, 0, none, ""⟩))
      "c1" (by rfl)).2 ⟨ModeSpeakersOnly, .nil, .nil, 0, none, ""⟩ (by rfl)).elim
      fun st h => ⟨st, h.1, h.2.1 rfl, h.2.2.1 rfl, h.2.2.2.1 rfl, h.2.2.2.2.2.2.2.1⟩⟩

/-! ## The arguments of the settle command -/

theorem atoi_of_hasPrefix_at {t : String} (h : hasPrefixStr t "@" = true) : atoi t = none := by
  obtain ⟨cs⟩ := t
  cases cs with
  | nil => simp [atoi]
  | cons c cs =>
    have hc : '@' = c := by
      simpa [hasPrefixStr, List.isPrefixOf] using h
    subst hc
    simp [atoi, parseDigits]

/-- The targets after the loop are the targets before it followed by the parameters that
start with `@`, in their order, each without its leading `@`. -/
theorem settleParams_targets (params : List String) (acc : Int × List String) :
    (settleParams params acc).2 =
      acc.2 ++ (params.filter (fun t => hasPrefixStr t "@")).map
        (fun t => trimPrefixStr t "@") := by
  induction params generalizing acc with
  | nil => simp [settleParams]
  | cons param rest ih =>
    obtain ⟨seconds, targets⟩ := acc
    unfold settleParams
    by_cases hp : hasPrefixStr param "@" = true
    · simp [hp, ih]
    · simp only [hp, Bool.false_eq_true, if_false]
      have hf : (List.filter (fun t => hasPrefixStr t "@") (param :: rest)) =
          List.filter (fun t => hasPrefixStr t "@") rest := by
        simp [List.filter, hp]
      rw [hf]
      split
      · split
        · exact ih _
        · exact ih _
      · exact ih _

/-- A parameter that is no target and no integer from 1 to 300 is skipped. -/
theorem settleParams_skip (tok : String) (rest : List String) (acc : Int × List String)
    (hp : hasPrefixStr tok "@" = false)
    (h : atoi tok = none ∨ ∃ n, atoi tok = some n ∧ ¬ (1 ≤ n ∧ n ≤ 300)) :
    settleParams (tok :: rest) acc = settleParams rest acc := by
  obtain ⟨seconds, targets⟩ := acc
  rw [settleParams]
  simp only [hp, Bool.false_eq_true, if_false]
  rcases h with h | ⟨n, h, hn⟩
  · simp [h]
  · have hn' : ¬ (n > 0 ∧ n ≤ 300) := by omega
    simp [h, hn']

/-- When every parameter is `tok`, a target, no integer or an integer outside 1 to 300, and
the seconds read so far are the value `t` of `tok`, the seconds stay `t`. -/
theorem settleParams_seconds_stay (tok : String) (t : Int) (params : List String)
    (acc : Int × List String)
    (htok : atoi tok = some t)
    (hall : ∀ x ∈ params, x = tok ∨ hasPrefixStr x "@" = true ∨ atoi x = none ∨
      ∃ n, atoi x = some n ∧ ¬ (n > 0 ∧ n ≤ 300))
    (hacc : acc.1 = t) :
    (settleParams params acc).1 = t := by
  induction params generalizing acc with
  | nil => simpa [settleParams] using hacc
  | cons x rest ih =>
    obtain ⟨seconds, targets⟩ := acc
    have hr : ∀ y ∈ rest, y = tok ∨ hasPrefixStr y "@" = true ∨ atoi y = none ∨
        ∃ n, atoi y = some n ∧ ¬ (n > 0 ∧ n ≤ 300) := fun y hy => hall y (by simp [hy])
    unfold settleParams
    split
    · exact ih _ hr hacc
    · rename_i hpre
      split
      · rename_i parsed hparsed
        split
        · rename_i hin
          rcases hall x (by simp) with h | h | h | ⟨n, h, hn⟩
          · subst h
            rw [htok] at hparsed
            simp only [Option.some.injEq] at hparsed
            exact ih _ hr hparsed.symm
          · exact absurd h hpre
          · rw [h] at hparsed; exact absurd hparsed (by simp)
          · rw [h] at hparsed
            simp only [Option.some.injEq] at hparsed
            subst hparsed
            exact absurd hin hn
        · exact ih _ hr hacc
      · exact ih _ hr hacc

/-- When `tok` is among the parameters, is an integer `t` from 1 to 300, and every other
parameter is a target, no integer or an integer outside 1 to 300, the seconds are `t`. -/
theorem settleParams_seconds_only (tok : String) (t : Int) (params : List String)
    (acc : Int × List String)
    (htok : atoi tok = some t) (ht : 1 ≤ t ∧ t ≤ 300) (hmem : tok ∈ params)
    (hall : ∀ x ∈ params, x = tok ∨ hasPrefixStr x "@" = true ∨ atoi x = none ∨
      ∃ n, atoi x = some n ∧ ¬ (n > 0 ∧ n ≤ 300)) :
    (settleParams params acc).1 = t := by
  induction params generalizing acc with
  | nil => simp at hmem
  | cons x rest ih =>
    obtain ⟨seconds, targets⟩ := acc
    have hr : ∀ y ∈ rest, y = tok ∨ hasPrefixStr y "@" = true ∨ atoi y = none ∨
        ∃ n, atoi y = some n ∧ ¬ (n > 0 ∧ n ≤ 300) := fun y hy => hall y (by simp [hy])
    by_cases hx : x = tok
    · subst hx
      have hpre : ¬ hasPrefixStr x "@" = true := by
        intro h
        rw [atoi_of_hasPrefix_at h] at htok
        exact absurd htok (by simp)
      have hin : t > 0 ∧ t ≤ 300 := by omega
      unfold settleParams
      simp only [hpre, if_false, htok, hin, and_self, if_true]
      exact settleParams_seconds_stay x t rest _ htok hr rfl
    · have hmem' : tok ∈ rest := by
        rcases List.mem_cons.1 hmem with h | h
        · exact absurd h.symm hx
        · exact h
      unfold settleParams
      split
      · exact ih _ hmem' hr
      · rename_i hpre
        split
        · rename_i parsed hparsed
          split
          · rename_i hin
            rcases hall x (by simp) with h | h | h | ⟨n, h, hn⟩
            · exact absurd h hx
            · exact absurd h hpre
            · rw [h] at hparsed; exact absurd hparsed (by simp)
            · rw [h] at hparsed
              simp only [Option.some.injEq] at hparsed
              subst hparsed
              exact absurd hin hn
          · exact ih _ hmem' hr
        · exact ih _ hmem' hr

/-- C13: for every argument list the seconds `executeSettle` computes lie in 1 to 300; a
parameter not starting with `@` that is no integer, or is an integer outside 1 to 300, is
skipped, leaving the seconds and the targets as they were, and the targets are exactly the
parameters starting with `@`; so `-5` and `abc` alone leave 20 seconds and no target, and
`/settle -5` by a permitted caller locks the whole channel for 20 seconds; and an integer
`t` from 1 to 300 that is the only numeric parameter gives exactly `t` seconds. -/
theorem settle_duration_bounds (params : List String) :
    (1 ≤ (settleParams params (20, [])).1 ∧ (settleParams params (20, [])).1 ≤ 300) ∧
    (∀ (tok : String) (rest : List String) (acc : Int × List String),
      hasPrefixStr tok "@" = false →
      (atoi tok = none ∨ ∃ n, atoi tok = some n ∧ ¬ (1 ≤ n ∧ n ≤ 300)) →
      settleParams (tok :: rest) acc = settleParams rest acc) ∧
    (settleParams params (20, [])).2 =
      (params.filter (fun t => hasPrefixStr t "@")).map (fun t => trimPrefixStr t "@") ∧
    (atoi "-5" = some (-5) ∧ atoi "abc" = none ∧
      settleParams ["-5"] (20, []) = (20, []) ∧ settleParams ["abc"] (20, []) = (20, [])) ∧
    (∀ (p : Plugin) (args : CommandArgs) (now : Int) (st : ChannelState) (tok : String),
      (canBypassTalkingStick p args.UserId args.ChannelId).1 = true →
      getChannelState p args.ChannelId = .ok st →
      p.API.kvSetFails (channelKey args.ChannelId) = false →
      0 ≤ now → now + 300000 < 2 ^ 63 →
      hasPrefixStr tok "@" = false →
      (atoi tok = none ∨ ∃ n, atoi tok = some n ∧ ¬ (1 ≤ n ∧ n ≤ 300)) →
      (executeSettle p args [tok] now).plugin =
        withChannelState p args.ChannelId
          { st with PreviousMode := st.Mode, Mode := ModeLocked, SettleUntil := now + 20000,
                    SettleAgents := some ["all"] }) ∧
    (savedState (executeSettle (samplePlugin (sampleKV (sampleState ModeQA 0)))
        ⟨"admin1", "c1", "/settle -5"⟩ ["-5"] 1000).plugin "c1").map
        (fun s => (s.Mode, s.SettleAgents, s.SettleUntil)) =
      some ("locked", some ["all"], 21000) ∧
    (∀ (tok : String) (t : Int), tok ∈ params → atoi tok = some t → 1 ≤ t → t ≤ 300 →
      (∀ x ∈ params, x ≠ tok → hasPrefixStr x "@" = true ∨ atoi x = none) →
      (settleParams params (20, [])).1 = t) := by
  refine ⟨settleParams_seconds_range params (20, []) (by decide), settleParams_skip,
    by simpa using settleParams_targets params (20, []), by decide, ?_, by decide, ?_⟩
  · intro p args now st tok hby hst hset h0 h1 hp htok
    have hskip : settleParams [tok] (20, []) = (20, []) := by
      rw [settleParams_skip tok [] _ hp htok, settleParams]
    rw [(executeSettle_plugin [tok] now hby hst hset).1, hskip]
    simp only [List.length_nil, if_true]
    rw [wrapInt64_of_range (by omega) (by omega)]
    rfl
  · intro tok t hmem htok h1 h2 hothers
    apply settleParams_seconds_only tok t params _ htok ⟨h1, h2⟩ hmem
    intro x hx
    by_cases h : x = tok
    · exact Or.inl h
    · rcases hothers x hx h with h' | h'
      · exact Or.inr (Or.inl h')
      · exact Or.inr (Or.inr (Or.inl h'))

/-- C18: a permitted caller's `/settle` with at least one parameter starting with `@`
writes the loaded state with `SettleAgents` set to those parameters, in their order, each
without its leading `@`, with `SettleUntil = now + 1000 * s` for the seconds `s` computed,
and with `PreviousMode` set to the mode; the mode, the speakers and the question slots are
the loaded ones, and no restore goroutine is started. -/
theorem targeted_settle_activation (p : Plugin) (args : CommandArgs) (params : List String)
    (now : Int) (st : ChannelState)
    (hby : (canBypassTalkingStick p args.UserId args.ChannelId).1 = true)
    (htarget : ∃ t ∈ params, hasPrefixStr t "@" = true)
    (hst : getChannelState p args.ChannelId = .ok st)
    (hset : p.API.kvSetFails (channelKey args.ChannelId) = false)
    (h0 : 0 ≤ now) (h1 : now + 300000 < 2 ^ 63) :
    (executeSettle p args params now).plugin =
      withChannelState p args.ChannelId
        { st with
          SettleUntil := now + 1000 * (settleParams params (20, [])).1,
          PreviousMode := st.Mode,
          SettleAgents := some ((params.filter (fun t => hasPrefixStr t "@")).map
            (fun t => trimPrefixStr t "@")) } ∧
    (executeSettle p args params now).deferred = none ∧
    (1 ≤ (settleParams params (20, [])).1 ∧ (settleParams params (20, [])).1 ≤ 300) := by
  have hr := settleParams_seconds_range params (20, []) (by decide)
  have htargets : (settleParams params (20, [])).2 =
      (params.filter (fun t => hasPrefixStr t "@")).map (fun t => trimPrefixStr t "@") := by
    simpa using settleParams_targets params (20, [])
  have hlen : ¬ (settleParams params (20, [])).2.length = 0 := by
    obtain ⟨t, ht, hp⟩ := htarget
    rw [htargets, List.length_map]
    intro h
    have hnil := List.length_eq_zero.1 h
    have hmem : t ∈ List.filter (fun t => hasPrefixStr t "@") params :=
      List.mem_filter.2 ⟨ht, hp⟩
    rw [hnil] at hmem
    simp at hmem
  obtain ⟨hplug, hdef, -⟩ := executeSettle_plugin params now hby hst hset
  refine ⟨?_, by rw [hdef, if_neg hlen], hr⟩
  rw [hplug, if_neg hlen, wrapInt64_of_range (by omega) (by omega), htargets, Int.mul_comm]

/-- Witness of C18: `alice` runs `/settle 30 @agentx @bob` at time 1000 in a channel in Q&A
mode. -/
theorem targeted_settle_activation_witness :
    ((executeSettle (samplePlugin (sampleKV (sampleState ModeQA 2)))
        ⟨"admin1", "c1", "/settle 30 @agentx @bob"⟩ ["30", "@agentx", "@bob"] 1000).plugin =
      withChannelState (samplePlugin (sampleKV (sampleState ModeQA 2))) "c1"
        { sampleState ModeQA 2 with
          SettleUntil := 1000 + 1000 * (settleParams ["30", "@agentx", "@bob"] (20, [])).1,
          PreviousMode := ModeQA,
          SettleAgents := some ((["30", "@agentx", "@bob"].filter
            (fun t => hasPrefixStr t "@")).map (fun t => trimPrefixStr t "@")) } ∧
    (executeSettle (samplePlugin (sampleKV (sampleState ModeQA 2)))
        ⟨"admin1", "c1", "/settle 30 @agentx @bob"⟩ ["30", "@agentx", "@bob"] 1000).deferred =
      none ∧
    (1 ≤ (settleParams ["30", "@agentx", "@bob"] (20, [])).1 ∧
      (settleParams ["30", "@agentx", "@bob"] (20, [])).1 ≤ 300)) ∧
    (savedState (executeSettle (samplePlugin (sampleKV (sampleState ModeQA 2)))
        ⟨"admin1", "c1", "/settle 30 @agentx @bob"⟩ ["30", "@agentx", "@bob"] 1000).plugin
        "c1").map (fun s => (s.Mode, s.SettleAgents, s.SettleUntil)) =
      some ("qa", some ["agentx", "bob"], 31000) :=
  ⟨targeted_settle_activation (samplePlugin (sampleKV (sampleState ModeQA 2)))
      ⟨"admin1", "c1", "/settle 30 @agentx @bob"⟩ ["30", "@agentx", "@bob"] 1000
      (sampleState ModeQA 2) (by decide) ⟨"@agentx", by decide, by decide⟩ (by rfl) (by rfl)
      (by decide) (by decide),
    by decide⟩

/-! ## The mode command -/

/-- C16: with a state that loads and a write that succeeds, `/stick mode` answers in the
channel exactly when its first argument is one of `open`, `speakers`, `qa`, `locked`; for
such an argument it writes the loaded state with the mode set to the argument, the
speakers, the question slots and the settle fields being the loaded ones; for any other
argument it answers the caller alone with an error and writes nothing. -/
theorem mode_command (p : Plugin) (args : CommandArgs) (param0 : String)
    (rest : List String) (st : ChannelState)
    (hst : getChannelState p args.ChannelId = .ok st)
    (hset : p.API.kvSetFails (channelKey args.ChannelId) = false) :
    ((executeMode p args (param0 :: rest)).response.ResponseType =
        CommandResponseTypeInChannel ↔
      (param0 = "open" ∨ param0 = "speakers" ∨ param0 = "qa" ∨ param0 = "locked")) ∧
    ((param0 = "open" ∨ param0 = "speakers" ∨ param0 = "qa" ∨ param0 = "locked") →
      executeMode p args (param0 :: rest) =
        inChannel (withChannelState p args.ChannelId { st with Mode := param0 })
          ("Channel mode set to **" ++ param0 ++ "** (" ++ modeDescriptions param0 ++ ").")) ∧
    (¬ (param0 = "open" ∨ param0 = "speakers" ∨ param0 = "qa" ∨ param0 = "locked") →
      executeMode p args (param0 :: rest) =
        ephemeral p "Invalid mode. Options: open, speakers, qa, locked") := by
  have hvalid : validModes param0 = true ↔
      (param0 = "open" ∨ param0 = "speakers" ∨ param0 = "qa" ∨ param0 = "locked") := by
    simp [validModes, ModeOpen, ModeSpeakersOnly, ModeQA, ModeLocked, or_assoc]
  have hyes : (param0 = "open" ∨ param0 = "speakers" ∨ param0 = "qa" ∨ param0 = "locked") →
      executeMode p args (param0 :: rest) =
        inChannel (withChannelState p args.ChannelId { st with Mode := param0 })
          ("Channel mode set to **" ++ param0 ++ "** (" ++ modeDescriptions param0 ++ ").") := by
    intro h
    unfold executeMode
    simp only [hvalid.2 h, Bool.not_true, Bool.false_eq_true, if_false, hst,
      setChannelState_ok _ hset]
  have hno : ¬ (param0 = "open" ∨ param0 = "speakers" ∨ param0 = "qa" ∨ param0 = "locked") →
      executeMode p args (param0 :: rest) =
        ephemeral p "Invalid mode. Options: open, speakers, qa, locked" := by
    intro h
    have hv : validModes param0 = false := by
      cases hb : validModes param0
      · rfl
      · exact absurd (hvalid.1 hb) h
    unfold executeMode
    simp [hv]
  refine ⟨?_, hyes, hno⟩
  by_cases h : param0 = "open" ∨ param0 = "speakers" ∨ param0 = "qa" ∨ param0 = "locked"
  · simp only [hyes h, h, iff_true]
    rfl
  · simp only [hno h, h, iff_false, ephemeral]
    decide

/-- Witness of C16: `/stick mode qa` and `/stick mode quiet` in the speakers-only channel
`c1`, where `u1` is a speaker. -/
theorem mode_command_witness :
    (((executeMode (samplePlugin (sampleKV (sampleState ModeSpeakersOnly 0)))
        ⟨"u2", "c1", "/stick mode qa"⟩ ("qa" :: [])).response.ResponseType =
        CommandResponseTypeInChannel ↔
      ("qa" = "open" ∨ "qa" = "speakers" ∨ "qa" = "qa" ∨ "qa" = "locked")) ∧
    (("qa" = "open" ∨ "qa" = "speakers" ∨ "qa" = "qa" ∨ "qa" = "locked") →
      executeMode (samplePlugin (sampleKV (sampleState ModeSpeakersOnly 0)))
          ⟨"u2", "c1", "/stick mode qa"⟩ ("qa" :: []) =
        inChannel (withChannelState (samplePlugin (sampleKV (sampleState ModeSpeakersOnly 0)))
            "c1" { sampleState ModeSpeakersOnly 0 with Mode := "qa" })
          ("Channel mode set to **" ++ "qa" ++ "** (" ++ modeDescriptions "qa" ++ ").")) ∧
    (¬ ("qa" = "open" ∨ "qa" = "speakers" ∨ "qa" = "qa" ∨ "qa" = "locked") →
      executeMode (samplePlugin (sampleKV (sampleState ModeSpeakersOnly 0)))
          ⟨"u2", "c1", "/stick mode qa"⟩ ("qa" :: []) =
        ephemeral (samplePlugin (sampleKV (sampleState ModeSpeakersOnly 0)))
          "Invalid mode. Options: open, speakers, qa, locked")) ∧
    (savedState (executeMode (samplePlugin (sampleKV (sampleState ModeSpeakersOnly 0)))
        ⟨"u2", "c1", "/stick mode qa"⟩ ["qa"]).plugin "c1").map
        (fun s => (s.Mode, s.Speakers.lookup "u1")) = some ("qa", some true) ∧
    (executeMode (samplePlugin (sampleKV (sampleState ModeSpeakersOnly 0)))
        ⟨"u2", "c1", "/stick mode quiet"⟩ ["quiet"]).response =
      ⟨CommandResponseTypeEphemeral, "Invalid mode. Options: open, speakers, qa, locked"⟩ :=
  ⟨mode_command (samplePlugin (sampleKV (sampleState ModeSpeakersOnly 0)))
      ⟨"u2", "c1", "/stick mode qa"⟩ "qa" [] (sampleState ModeSpeakersOnly 0) (by rfl) (by rfl),
    by decide, by decide⟩

/-! ## The settle status -/

theorem settleStatusText_ne (agents : List String) (n : Int) :
    settleStatusText agents n ≠ "Channel is not currently settled." := by
  unfold settleStatusText
  split
  · split
    · intro h
      have h2 := congrArg (fun s => s.data.take 9) h
      simp [String.data_append] at h2
    · intro h
      have h2 := congrArg (fun s => s.data.take 1) h
      simp [String.data_append] at h2
  · intro h
    have h2 := congrArg (fun s => s.data.take 1) h
    simp [String.data_append] at h2

/-- What `/settle status` answers on a state that loads. -/
theorem executeSettleStatus_eq {p : Plugin} {args : CommandArgs} {st : ChannelState}
    (now : Int) (hst : getChannelState p args.ChannelId = .ok st) :
    executeSettleStatus p args now =
      if st.SettleUntil = 0 ∨ now ≥ st.SettleUntil then
        ephemeral p "Channel is not currently settled."
      else
        ephemeral p (settleStatusText (st.SettleAgents.getD [])
          (Int.tdiv (wrapInt64 (st.SettleUntil - now)) 1000)) := by
  unfold executeSettleStatus
  simp only [hst]

/-- The remaining seconds of an active settle, when the subtraction does not wrap: the
milliseconds left, divided by 1000 and rounded down. -/
theorem remainingSeconds_eq {settleUntil now : Int} (h0 : 0 ≤ now)
    (hsu : settleUntil < 2 ^ 63) (hlt : now < settleUntil) :
    Int.tdiv (wrapInt64 (settleUntil - now)) 1000 = max 0 (settleUntil - now) / 1000 := by
  rw [wrapInt64_of_range (by omega) (by omega), Int.tdiv_eq_ediv (by omega) (by decide),
    max_eq_right (by omega)]

/-- C19: on a state that loads, with a clock that is not negative, `/settle status` answers
that the channel is not currently settled exactly when `SettleUntil = 0` or
`now ≥ SettleUntil`; otherwise the seconds in its answer are `max 0 (SettleUntil - now)`
milliseconds divided by 1000 and rounded down, which is not negative; the command writes
nothing; and for a settle a permitted caller created by `/settle` at a time `now0 ≤ now`,
the answer is that the channel is not settled or holds seconds from 0 to 300. -/
theorem settle_status (p : Plugin) (args : CommandArgs) (now : Int) (st : ChannelState)
    (hst : getChannelState p args.ChannelId = .ok st)
    (h0 : 0 ≤ now) (hsu : st.SettleUntil < 2 ^ 63) :
    ((executeSettleStatus p args now).response.Text = "Channel is not currently settled." ↔
      (st.SettleUntil = 0 ∨ now ≥ st.SettleUntil)) ∧
    (¬ (st.SettleUntil = 0 ∨ now ≥ st.SettleUntil) →
      (executeSettleStatus p args now).response.Text =
        settleStatusText (st.SettleAgents.getD []) (max 0 (st.SettleUntil - now) / 1000) ∧
      0 ≤ max 0 (st.SettleUntil - now) / 1000) ∧
    ((executeSettleStatus p args now).plugin = p ∧
      (executeSettleStatus p args now).response.ResponseType = CommandResponseTypeEphemeral) ∧
    (∀ (caller : CommandArgs) (params : List String) (now0 : Int),
      caller.ChannelId = args.ChannelId →
      (canBypassTalkingStick p caller.UserId caller.ChannelId).1 = true →
      p.API.kvSetFails (channelKey caller.ChannelId) = false →
      0 ≤ now0 → now0 ≤ now → now0 + 300000 < 2 ^ 63 →
      (executeSettleStatus (executeSettle p caller params now0).plugin args now).response.Text =
          "Channel is not currently settled." ∨
        ∃ secs agents, 0 ≤ secs ∧ secs ≤ 300 ∧
          (executeSettleStatus (executeSettle p caller params now0).plugin args
            now).response.Text = settleStatusText agents secs) := by
  have heq := executeSettleStatus_eq now hst
  refine ⟨?_, ?_, ?_, ?_⟩
  · rw [heq]
    by_cases h : st.SettleUntil = 0 ∨ now ≥ st.SettleUntil
    · simp only [if_pos h, h, iff_true]
      rfl
    · simp only [if_neg h, h, iff_false]
      exact settleStatusText_ne _ _
  · intro h
    have hlt : now < st.SettleUntil := by omega
    rw [heq, if_neg h]
    refine ⟨?_, Int.ediv_nonneg (le_max_left _ _) (by decide)⟩
    simp only [ephemeral, remainingSeconds_eq h0 hsu hlt]
  · rw [heq]
    split <;> exact ⟨rfl, rfl⟩
  · intro caller params now0 hch hby hset hn0 hle hn1
    rw [← hch] at hst
    obtain ⟨hplug, -, -⟩ := executeSettle_plugin params now0 hby hst hset
    obtain ⟨⟨f, hf⟩, ⟨g, hg⟩⟩ := getChannelState_present hst
    have hget := getChannelState_kvGetFails hst
    have hr := settleParams_seconds_range params (20, []) (by decide)
    have hw : wrapInt64 (now0 + (settleParams params (20, [])).1 * 1000) =
        now0 + (settleParams params (20, [])).1 * 1000 :=
      wrapInt64_of_range (by omega) (by omega)
    have hload : ∃ s, getChannelState (executeSettle p caller params now0).plugin
        caller.ChannelId = .ok s ∧
        s.SettleUntil = now0 + (settleParams params (20, [])).1 * 1000 := by
      rw [hplug, hw]
      split
      · exact ⟨_, getChannelState_withChannelState hget hf hg rfl, rfl⟩
      · exact ⟨_, getChannelState_withChannelState hget hf hg rfl, rfl⟩
    obtain ⟨s, hs, hsu'⟩ := hload
    rw [hch] at hs
    rw [executeSettleStatus_eq now hs]
    by_cases h : s.SettleUntil = 0 ∨ now ≥ s.SettleUntil
    · left
      rw [if_pos h]
      rfl
    · right
      have hlt : now < s.SettleUntil := by omega
      rw [if_neg h]
      refine ⟨max 0 (s.SettleUntil - now) / 1000, s.SettleAgents.getD [],
        Int.ediv_nonneg (le_max_left _ _) (by decide), ?_, ?_⟩
      · rw [max_eq_right (by omega)]
        omega
      · simp only [ephemeral, remainingSeconds_eq h0 (by omega) hlt]

/-- Witness of C19: the status at time 5500 of the settle `alice` created by `/settle 45` at
time 1000, and the status of a channel that was never settled. -/
theorem settle_status_witness :
    (executeSettleStatus (samplePlugin (sampleKV
        { sampleState ModeLocked 0 with SettleUntil := 46000, SettleAgents := some ["all"] }))
        ⟨"u2", "c1", "/settle status"⟩ 5500).response.Text =
      settleStatusText ["all"] (max 0 (46000 - 5500) / 1000) ∧
    (0 : Int) ≤ max 0 (46000 - 5500) / 1000 ∧
    (executeSettleStatus (samplePlugin (sampleKV
        { sampleState ModeLocked 0 with SettleUntil := 46000, SettleAgents := some ["all"] }))
        ⟨"u2", "c1", "/settle status"⟩ 5500).response.Text =
      "Channel settled for 40 more seconds (all agents)" ∧
    (executeSettleStatus (executeSettle (samplePlugin (sampleKV (sampleState ModeQA 0)))
        ⟨"admin1", "c1", "/settle 45"⟩ ["45"] 1000).plugin
        ⟨"u2", "c1", "/settle status"⟩ 5500).response.Text =
      "Channel settled for 40 more seconds (all agents)" ∧
    (executeSettleStatus (samplePlugin (sampleKV (sampleState ModeQA 0)))
        ⟨"u2", "c1", "/settle status"⟩ 5500).response.Text =
      "Channel is not currently settled." :=
  ⟨((settle_status (samplePlugin (sampleKV
        { sampleState ModeLocked 0 with SettleUntil := 46000, SettleAgents := some ["all"] }))
      ⟨"u2", "c1", "/settle status"⟩ 5500
      { sampleState ModeLocked 0 with SettleUntil := 46000, SettleAgents := some ["all"] }
      (by rfl) (by decide) (by decide)).2.1 (by decide)).1,
    ((settle_status (samplePlugin (sampleKV
        { sampleState ModeLocked 0 with SettleUntil := 46000, SettleAgents := some ["all"] }))
      ⟨"u2", "c1", "/settle status"⟩ 5500
      { sampleState ModeLocked 0 with SettleUntil := 46000, SettleAgents := some ["all"] }
      (by rfl) (by decide) (by decide)).2.1 (by decide)).2,
    by decide, by decide, by decide⟩

/-! ## Slot counts stay at or above zero -/

theorem channelKey_injective {a b : String} (h : channelKey a = channelKey b) : a = b := by
  have h2 := congrArg String.data h
  simp only [channelKey, String.data_append] at h2
  exact String.ext (List.append_cancel_left h2)

theorem savedState_withChannelState_other (p : Plugin) {channelID other : String}
    (state : ChannelState) (h : other ≠ channelID) :
    savedState (withChannelState p channelID state) other = savedState p other := by
  have hk : channelKey other ≠ channelKey channelID := fun hk => h (channelKey_injective hk)
  simp [savedState, withChannelState, hk]

/-- A state that loads from a store with no negative slot count has none. -/
theorem SlotsNonneg_loaded {p : Plugin} {channelID : String} {st : ChannelState}
    (hinv : SlotsNonneg p) (hst : getChannelState p channelID = .ok st) :
    ∀ k v, st.QASlots.lookup k = some v → 0 ≤ v := by
  intro k v hk
  unfold getChannelState API.KVGet at hst
  split at hst
  · exact absurd hst (by simp)
  · simp only [Except.ok.injEq] at hst
    subst hst
    simp [GoMap.make, GoMap.lookup] at hk
  · rename_i data hdata
    split at hdata
    · exact absurd hdata (by simp)
    · split at hdata
      · exact absurd hdata (by simp)
      · rename_i d hkv
        simp only [Lookup.found.injEq] at hdata
        subst hdata
        split at hst
        · exact absurd hst (by simp)
        · rename_i record hrec
          have hsaved : savedState p channelID = some record := by
            simp [savedState, hkv, hrec]
          simp only [Except.ok.injEq] at hst
          subst hst
          have hrecord := hinv channelID record hsaved k v
          obtain ⟨mode, speakers, qaSlots, settleUntil, settleAgents, previousMode⟩ := record
          cases speakers <;> cases qaSlots <;> cases settleAgents <;>
            simp_all [GoMap.make, GoMap.lookup]

theorem SlotsNonneg_withChannelState {p : Plugin} (channelID : String) {state : ChannelState}
    (hinv : SlotsNonneg p) (hstate : ∀ k v, state.QASlots.lookup k = some v → 0 ≤ v) :
    SlotsNonneg (withChannelState p channelID state) := by
  intro other st hsaved k v hk
  by_cases h : other = channelID
  · subst h
    rw [savedState_withChannelState] at hsaved
    simp only [Option.some.injEq] at hsaved
    subst hsaved
    exact hstate k v hk
  · rw [savedState_withChannelState_other p state h] at hsaved
    exact hinv other st hsaved k v hk

theorem SlotsNonneg_setChannelState {p p' : Plugin} {channelID : String}
    {state : ChannelState} (hinv : SlotsNonneg p)
    (hset : setChannelState p channelID state = .ok p')
    (hstate : ∀ k v, state.QASlots.lookup k = some v → 0 ≤ v) : SlotsNonneg p' := by
  unfold setChannelState API.KVSet at hset
  split at hset
  · exact absurd hset (by simp)
  · rename_i api hapi
    split at hapi
    · exact absurd hapi (by simp)
    · simp only [Option.some.injEq] at hapi
      simp only [Except.ok.injEq] at hset
      subst hapi hset
      exact SlotsNonneg_withChannelState channelID hinv hstate

theorem nonneg_assign {m m' : GoMap Int} {key : String} {val : Int}
    (hm : ∀ k v, m.lookup k = some v → 0 ≤ v) (hval : 0 ≤ val)
    (h : m.assign key val = some m') : ∀ k v, m'.lookup k = some v → 0 ≤ v := by
  intro k v hk
  cases m with
  | nil => simp [GoMap.assign] at h
  | entries f =>
    simp only [GoMap.assign, Option.some.injEq] at h
    subst h
    simp only [GoMap.lookup] at hk
    split at hk
    · simp only [Option.some.injEq] at hk
      omega
    · exact hm k v hk

theorem nonneg_delete {m : GoMap Int} (key : String)
    (hm : ∀ k v, m.lookup k = some v → 0 ≤ v) :
    ∀ k v, (m.delete key).lookup k = some v → 0 ≤ v := by
  intro k v hk
  by_cases h : k = key
  · subst h
    rw [GoMap.lookup_delete_self] at hk
    exact absurd hk (by simp)
  · rw [GoMap.lookup_delete_other _ h] at hk
    exact hm k v hk

theorem MessageWillBePosted_slots {p : Plugin} (post : Option Post) (hinv : SlotsNonneg p) :
    SlotsNonneg (MessageWillBePosted p post).plugin := by
  unfold MessageWillBePosted
  repeat' split
  all_goals first
    | exact hinv
    | (refine SlotsNonneg_setChannelState hinv (by assumption) ?_
       dsimp only
       refine nonneg_assign (SlotsNonneg_loaded hinv (by assumption)) ?_ (by assumption)
       omega)

theorem executeGrant_slots {p : Plugin} (args : CommandArgs) (params : List String)
    (hinv : SlotsNonneg p) :
    ∀ r, executeGrant p args params = some r → SlotsNonneg r.plugin := by
  intro r hr
  cases params with
  | nil =>
    simp only [executeGrant, Option.some.injEq] at hr
    subst hr
    exact hinv
  | cons param0 rest =>
    cases hS : getChannelState p args.ChannelId with
    | error e =>
      cases hU : p.API.GetUserByUsername (trimPrefixStr param0 "@") <;>
        (simp only [executeGrant, hU, hS, Option.some.injEq] at hr
         subst hr
         exact hinv)
    | ok st =>
      cases hU : p.API.GetUserByUsername (trimPrefixStr param0 "@") with
      | failed =>
        simp only [executeGrant, hU, Option.some.injEq] at hr
        subst hr
        exact hinv
      | missing => simp [executeGrant, hU, hS] at hr
      | found user =>
        cases hA : st.Speakers.assign user.Id true with
        | none => simp [executeGrant, hU, hS, hA] at hr
        | some speakers =>
          cases hW : setChannelState p args.ChannelId { st with Speakers := speakers } with
          | error e =>
            simp only [executeGrant, hU, hS, hA, hW, Option.some.injEq] at hr
            subst hr
            exact hinv
          | ok p' =>
            simp only [executeGrant, hU, hS, hA, hW, Option.some.injEq] at hr
            subst hr
            have hl := SlotsNonneg_loaded hinv hS
            exact SlotsNonneg_setChannelState hinv hW hl

theorem executeRevoke_slots {p : Plugin} (args : CommandArgs) (params : List String)
    (hinv : SlotsNonneg p) :
    ∀ r, executeRevoke p args params = some r → SlotsNonneg r.plugin := by
  intro r hr
  cases params with
  | nil =>
    simp only [executeRevoke, Option.some.injEq] at hr
    subst hr
    exact hinv
  | cons param0 rest =>
    cases hS : getChannelState p args.ChannelId with
    | error e =>
      cases hU : p.API.GetUserByUsername (trimPrefixStr param0 "@") <;>
        (simp only [executeRevoke, hU, hS, Option.some.injEq] at hr
         subst hr
         exact hinv)
    | ok st =>
      cases hU : p.API.GetUserByUsername (trimPrefixStr param0 "@") with
      | failed =>
        simp only [executeRevoke, hU, Option.some.injEq] at hr
        subst hr
        exact hinv
      | missing => simp [executeRevoke, hU, hS] at hr
      | found user =>
        cases hW : setChannelState p args.ChannelId
            { st with Speakers := st.Speakers.delete user.Id,
                      QASlots := st.QASlots.delete user.Id } with
        | error e =>
          simp only [executeRevoke, hU, hS, hW, Option.some.injEq] at hr
          subst hr
          exact hinv
        | ok p' =>
          simp only [executeRevoke, hU, hS, hW, Option.some.injEq] at hr
          subst hr
          have hl := nonneg_delete user.Id (SlotsNonneg_loaded hinv hS)
          exact SlotsNonneg_setChannelState hinv hW hl

theorem executeMode_slots {p : Plugin} (args : CommandArgs) (params : List String)
    (hinv : SlotsNonneg p) : SlotsNonneg (executeMode p args params).plugin := by
  cases params with
  | nil => exact hinv
  | cons param0 rest =>
    cases hv : validModes param0 with
    | false =>
      simp only [executeMode, hv, Bool.not_false, if_true]
      exact hinv
    | true =>
      cases hS : getChannelState p args.ChannelId with
      | error e =>
        simp only [executeMode, hv, hS, Bool.not_true, Bool.false_eq_true, if_false]
        exact hinv
      | ok st =>
        have hl := SlotsNonneg_loaded hinv hS
        simp only [executeMode, hv, hS, Bool.not_true, Bool.false_eq_true, if_false]
        split
        · exact hinv
        · rename_i p' hW
          exact SlotsNonneg_setChannelState hinv hW hl

theorem executeQAGrant_slots {p : Plugin} (args : CommandArgs) (params : List String)
    (hinv : SlotsNonneg p) :
    ∀ r, executeQAGrant p args params = some r → SlotsNonneg r.plugin := by
  intro r hr
  have hkeep : ∀ text, some (ephemeral p text) = some r → SlotsNonneg r.plugin := by
    intro text h
    simp only [Option.some.injEq] at h
    subst h
    exact hinv
  cases params with
  | nil => exact hkeep _ hr
  | cons param0 rest =>
    cases hU : p.API.GetUserByUsername (trimPrefixStr param0 "@") with
    | failed =>
      simp only [executeQAGrant, hU] at hr
      exact hkeep _ hr
    | missing =>
      simp only [executeQAGrant, hU] at hr
      split at hr
      · exact hkeep _ hr
      · split at hr
        · exact hkeep _ hr
        · exact absurd hr (by simp)
    | found user =>
      simp only [executeQAGrant, hU] at hr
      split at hr
      · exact hkeep _ hr
      · rename_i slots hslots
        have hpos : 0 ≤ slots := by
          split at hslots
          · simp only [Option.some.injEq] at hslots
            omega
          · split at hslots
            · exact absurd hslots (by simp)
            · split at hslots
              · exact absurd hslots (by simp)
              · simp only [Option.some.injEq] at hslots
                omega
        split at hr
        · exact hkeep _ hr
        · rename_i st hS
          have hl := SlotsNonneg_loaded hinv hS
          split at hr
          · exact absurd hr (by simp)
          · rename_i qaSlots hA
            have hq := nonneg_assign hl hpos hA
            split at hr
            · exact hkeep _ hr
            · rename_i p' hW
              simp only [Option.some.injEq] at hr
              subst hr
              exact SlotsNonneg_setChannelState hinv hW hq

theorem executeSettle_slots {p : Plugin} (args : CommandArgs) (params : List String)
    (now : Int) (hinv : SlotsNonneg p) :
    SlotsNonneg (executeSettle p args params now).plugin := by
  unfold executeSettle
  split
  · exact hinv
  · exact hinv
  · rcases hsp : settleParams params (20, []) with ⟨seconds, targets⟩
    simp only []
    split
    · exact hinv
    · rename_i st hS
      have hl := SlotsNonneg_loaded hinv hS
      by_cases hlen : targets.length = 0
      · simp only [hlen, if_true]
        split
        · exact hinv
        · rename_i p' hW
          exact SlotsNonneg_setChannelState hinv hW hl
      · simp only [hlen, if_false]
        split
        · exact hinv
        · rename_i p' hW
          exact SlotsNonneg_setChannelState hinv hW hl

theorem settleRestore_slots {p : Plugin} (channelID : String) (hinv : SlotsNonneg p) :
    SlotsNonneg (settleRestore p channelID) := by
  unfold settleRestore
  split
  · exact hinv
  · rename_i st hS
    have hl := SlotsNonneg_loaded hinv hS
    split
    · simp only []
      split
      · exact hinv
      · rename_i p' hW
        exact SlotsNonneg_setChannelState hinv hW hl
    · exact hinv

theorem sample_slotsNonneg (mode : ChannelMode) (slots : Int) (h : 0 ≤ slots) :
    SlotsNonneg (samplePlugin (sampleKV (sampleState mode slots))) := by
  intro channelID st hsaved k v hk
  simp only [savedState, samplePlugin, sampleAPI, sampleKV] at hsaved
  split at hsaved
  · rename_i data hdata
    split at hdata
    · simp only [Option.some.injEq] at hdata
      subst hdata
      simp only [jsonMarshal, jsonUnmarshal, Option.some.injEq] at hsaved
      subst hsaved
      simp only [sampleState, GoMap.lookup] at hk
      split at hk
      · simp only [Option.some.injEq] at hk
        omega
      · exact absurd hk (by simp)
    · exact absurd hdata (by simp)
  · exact absurd hsaved (by simp)

/-- C17: when no slot count kept in the store is negative, none is after any operation: a
post handled by the hook, `/stick grant`, `/stick revoke`, `/stick mode`, `/stick qa-grant`,
`/settle` and the restore goroutine; and when the hook admits the post of a poster who
cannot bypass, is no speaker and holds one slot in Q&A mode, the entry stays in the stored
state with the count zero, after which the same post is not admitted. -/
theorem slots_never_negative (p : Plugin) (hinv : SlotsNonneg p) :
    (∀ post, SlotsNonneg (MessageWillBePosted p post).plugin) ∧
    (∀ args params r, executeGrant p args params = some r → SlotsNonneg r.plugin) ∧
    (∀ args params r, executeRevoke p args params = some r → SlotsNonneg r.plugin) ∧
    (∀ args params, SlotsNonneg (executeMode p args params).plugin) ∧
    (∀ args params r, executeQAGrant p args params = some r → SlotsNonneg r.plugin) ∧
    (∀ args params now, SlotsNonneg (executeSettle p args params now).plugin) ∧
    (∀ channelID, SlotsNonneg (settleRestore p channelID)) ∧
    (∀ (post : Post) (st : ChannelState),
      post.IsSystemMessage = false →
      getChannelState p post.ChannelId = .ok st →
      p.API.kvSetFails (channelKey post.ChannelId) = false →
      st.Mode = ModeQA →
      (canBypassTalkingStick p post.UserId post.ChannelId).1 = false →
      st.Speakers.lookup post.UserId ≠ some true →
      st.QASlots.lookup post.UserId = some 1 →
      (MessageWillBePosted p (some post)).admitted = true →
      (∃ s, savedState (MessageWillBePosted p (some post)).plugin post.ChannelId = some s ∧
        s.QASlots.lookup post.UserId = some 0) ∧
      (MessageWillBePosted (MessageWillBePosted p (some post)).plugin (some post)).admitted =
        false) := by
  refine ⟨fun post => MessageWillBePosted_slots post hinv,
    fun args params => executeGrant_slots args params hinv,
    fun args params => executeRevoke_slots args params hinv,
    fun args params => executeMode_slots args params hinv,
    fun args params => executeQAGrant_slots args params hinv,
    fun args params now => executeSettle_slots args params now hinv,
    fun channelID => settleRestore_slots channelID hinv, ?_⟩
  intro post st hsys hst hset hmode hby hsp hslots hadm
  have hsup : suppressed (getConfiguration p) post.Message = false := by
    cases h : suppressed (getConfiguration p) post.Message
    · rfl
    · exfalso
      have hrej : MessageWillBePosted p (some post) = ⟨none, DismissPostError, p⟩ := by
        unfold MessageWillBePosted
        simp only [hsys, h, Bool.false_eq_true, if_false, if_true]
      rw [hrej] at hadm
      simp [HookResult.admitted] at hadm
  obtain ⟨⟨f, hf⟩, ⟨g, hg⟩⟩ := getChannelState_present hst
  have hget := getChannelState_kvGetFails hst
  have hslots' : g post.UserId = some 1 := by simpa [hg, GoMap.lookup] using hslots
  have hstep := qa_step hsys hsup hst hset hmode hby hsp hg hslots'
  rw [if_pos (by decide)] at hstep
  have hload := getChannelState_withChannelState_repair p post.ChannelId
    { st with QASlots := .entries (fun x => if x = post.UserId then some (1 - 1) else g x) }
    hget hf rfl
  have hstep2 := qa_step (p := withChannelState p post.ChannelId _) (m := 1 - 1) hsys hsup
    hload hset hmode hby hsp rfl (by simp)
  rw [if_neg (by decide)] at hstep2
  rw [hstep, hstep2]
  refine ⟨⟨_, savedState_withChannelState _ _ _, by simp [GoMap.lookup]⟩, rfl⟩

/-- Witness of C17: the sample store where `u2` holds one slot; the hook keeps the counts at
or above zero, and the post of `u2` is admitted, leaves the count zero and is then
rejected. -/
theorem slots_never_negative_witness :
    SlotsNonneg (samplePlugin (sampleKV (sampleState ModeQA 1))) ∧
    SlotsNonneg (MessageWillBePosted (samplePlugin (sampleKV (sampleState ModeQA 1)))
      (some ⟨"u2", "c1", "question", ""⟩)).plugin ∧
    (MessageWillBePosted (samplePlugin (sampleKV (sampleState ModeQA 1)))
        (some ⟨"u2", "c1", "question", ""⟩)).admitted = true ∧
    ((∃ s, savedState (MessageWillBePosted (samplePlugin (sampleKV (sampleState ModeQA 1)))
          (some ⟨"u2", "c1", "question", ""⟩)).plugin "c1" = some s ∧
        s.QASlots.lookup "u2" = some 0) ∧
      (MessageWillBePosted (MessageWillBePosted (samplePlugin (sampleKV (sampleState ModeQA 1)))
          (some ⟨"u2", "c1", "question", ""⟩)).plugin
        (some ⟨"u2", "c1", "question", ""⟩)).admitted = false) :=
  ⟨sample_slotsNonneg ModeQA 1 (by decide),
    (slots_never_negative (samplePlugin (sampleKV (sampleState ModeQA 1)))
      (sample_slotsNonneg ModeQA 1 (by decide))).1 (some ⟨"u2", "c1", "question", ""⟩),
    by decide,
    (slots_never_negative (samplePlugin (sampleKV (sampleState ModeQA 1)))
      (sample_slotsNonneg ModeQA 1 (by decide))).2.2.2.2.2.2.2 ⟨"u2", "c1", "question", ""⟩
      (sampleState ModeQA 1) (by decide) (by rfl) (by rfl) (by rfl) (by decide)
      (by decide) (by decide) (by decide)⟩

/-! ## The restore after a whole-channel settle -/

/-- What the restore goroutine does on a state that loads, when the write succeeds. -/
theorem settleRestore_eq {p : Plugin} {channelID : String} {st : ChannelState}
    (hst : getChannelState p channelID = .ok st)
    (hset : p.API.kvSetFails (channelKey channelID) = false) :
    settleRestore p channelID =
      if st.SettleUntil > 0 then
        withChannelState p channelID
          { st with Mode := st.PreviousMode, SettleUntil := 0, SettleAgents := some [] }
      else p := by
  unfold settleRestore
  simp only [hst]
  split
  · simp only [setChannelState_ok _ hset]
  · rfl

/-- C21, as amended: the restore goroutine changes the channel state exactly when the
`SettleUntil` it finds on loading is above zero, whatever settle wrote that value; it then
writes the loaded state with `Mode = PreviousMode`, `SettleUntil = 0` and no settle agents;
when `SettleUntil` is zero or below, or the state does not load, it writes nothing. -/
theorem restore_guard (p : Plugin) (channelID : String) (st : ChannelState)
    (hst : getChannelState p channelID = .ok st)
    (hset : p.API.kvSetFails (channelKey channelID) = false) :
    (0 < st.SettleUntil →
      settleRestore p channelID =
        withChannelState p channelID
          { st with Mode := st.PreviousMode, SettleUntil := 0, SettleAgents := some [] }) ∧
    (st.SettleUntil ≤ 0 → settleRestore p channelID = p) ∧
    (∀ (q : Plugin) (e : String), getChannelState q channelID = .error e →
      settleRestore q channelID = q) := by
  refine ⟨?_, ?_, ?_⟩
  · intro h
    rw [settleRestore_eq hst hset, if_pos h]
  · intro h
    rw [settleRestore_eq hst hset, if_neg (by omega)]
  · intro q e hq
    unfold settleRestore
    simp only [hq]

/-- Witness of C21 as amended: the restore on the store the first settle left, and on a
store whose settle was already cleared. -/
theorem restore_guard_witness :
    settleRestore firstSettlePlugin "c1" =
      withChannelState firstSettlePlugin "c1"
        { Mode := "qa", Speakers := (sampleState ModeQA 0).Speakers,
          QASlots := (sampleState ModeQA 0).QASlots, SettleUntil := 0,
          SettleAgents := some [], PreviousMode := "qa" } ∧
    settleRestore (samplePlugin (sampleKV (sampleState ModeQA 0))) "c1" =
      samplePlugin (sampleKV (sampleState ModeQA 0)) :=
  ⟨(restore_guard firstSettlePlugin "c1"
      { Mode := ModeLocked, Speakers := (sampleState ModeQA 0).Speakers,
        QASlots := (sampleState ModeQA 0).QASlots, SettleUntil := 2000,
        SettleAgents := some ["all"], PreviousMode := "qa" }
      (by rfl) (by rfl)).1 (by decide),
    (restore_guard (samplePlugin (sampleKV (sampleState ModeQA 0))) "c1" (sampleState ModeQA 0)
      (by rfl) (by rfl)).2.1 (by decide)⟩

/-- C21 as stated fails: the first settle wrote `SettleUntil = 2000` and started a restore;
a second settle then wrote `SettleUntil = 61500`; the restore of the first settle finds
61500, not 2000, and still writes: it clears `SettleUntil` and the settle agents. -/
theorem restore_newer_settle_counterexample :
    (savedState firstSettlePlugin "c1").map (fun s => s.SettleUntil) = some 2000 ∧
    (executeSettle (samplePlugin (sampleKV (sampleState ModeQA 0)))
      ⟨"admin1", "c1", "/settle 1"⟩ ["1"] 1000).deferred = some ⟨1, "c1"⟩ ∧
    (savedState secondSettlePlugin "c1").map (fun s => (s.SettleUntil, s.SettleAgents)) =
      some (61500, some ["all"]) ∧
    (savedState (settleRestore secondSettlePlugin "c1") "c1").map
        (fun s => (s.SettleUntil, s.SettleAgents)) = some (0, some []) := by
  decide

/-- One restore on a channel whose loaded mode and previous mode are both `locked`: they
still are afterwards. -/
theorem settleRestore_locked {q : Plugin} {channelID : String} {s : ChannelState}
    (hs : getChannelState q channelID = .ok s)
    (hset : q.API.kvSetFails (channelKey channelID) = false)
    (hm : s.Mode = ModeLocked) (hp : s.PreviousMode = ModeLocked) :
    (∃ s', getChannelState (settleRestore q channelID) channelID = .ok s' ∧
      s'.Mode = ModeLocked ∧ s'.PreviousMode = ModeLocked) ∧
    (settleRestore q channelID).API.kvSetFails (channelKey channelID) = false := by
  obtain ⟨⟨f, hf⟩, ⟨g, hg⟩⟩ := getChannelState_present hs
  have hget := getChannelState_kvGetFails hs
  rw [settleRestore_eq hs hset]
  split
  · exact ⟨⟨_, getChannelState_withChannelState hget hf hg rfl, hp, hp⟩, hset⟩
  · exact ⟨⟨s, hs, hm, hp⟩, hset⟩

theorem settleRestore_iterate_locked {channelID : String} (n : Nat) :
    ∀ {q : Plugin} {s : ChannelState}, getChannelState q channelID = .ok s →
      q.API.kvSetFails (channelKey channelID) = false →
      s.Mode = ModeLocked → s.PreviousMode = ModeLocked →
      (∃ s', getChannelState (Nat.iterate (fun x => settleRestore x channelID) n q)
          channelID = .ok s' ∧ s'.Mode = ModeLocked ∧ s'.PreviousMode = ModeLocked) := by
  induction n with
  | zero =>
    intro q s hs _ hm hp
    exact ⟨s, hs, hm, hp⟩
  | succ n ih =>
    intro q s hs hset hm hp
    obtain ⟨⟨s', hs', hm', hp'⟩, hset'⟩ := settleRestore_locked hs hset hm hp
    rw [Function.iterate_succ_apply]
    exact ih hs' hset' hm' hp'

/-- C23: a permitted caller's `/settle`, with or without targets, writes `PreviousMode` as
the mode it loaded; so on a state whose mode is `locked` the state written has
`Mode = locked` and `PreviousMode = locked`, its other fields being the loaded speakers and
question slots and the new settle fields, so that the previous mode that was loaded occurs
nowhere in it; and after any number of restores the loaded mode and previous mode are
`locked`. -/
theorem resettle_loses_original_mode (p : Plugin) (args : CommandArgs) (params : List String)
    (now : Int) (st : ChannelState)
    (hby : (canBypassTalkingStick p args.UserId args.ChannelId).1 = true)
    (hst : getChannelState p args.ChannelId = .ok st)
    (hset : p.API.kvSetFails (channelKey args.ChannelId) = false)
    (h0 : 0 ≤ now) (h1 : now + 300000 < 2 ^ 63) :
    (savedState (executeSettle p args params now).plugin args.ChannelId).map
        (fun s => s.PreviousMode) = some st.Mode ∧
    (st.Mode = ModeLocked →
      (executeSettle p args params now).plugin =
        withChannelState p args.ChannelId
          { Mode := ModeLocked, Speakers := st.Speakers, QASlots := st.QASlots,
            SettleUntil := now + 1000 * (settleParams params (20, [])).1,
            SettleAgents := some
              (if (settleParams params (20, [])).2.length = 0 then ["all"]
               else (settleParams params (20, [])).2),
            PreviousMode := ModeLocked } ∧
      ∀ n : Nat, ∃ s',
        getChannelState
          (Nat.iterate (fun q => settleRestore q args.ChannelId) n
            (executeSettle p args params now).plugin) args.ChannelId = .ok s' ∧
        s'.Mode = ModeLocked ∧ s'.PreviousMode = ModeLocked) := by
  have hr := settleParams_seconds_range params (20, []) (by decide)
  obtain ⟨hplug, -, -⟩ := executeSettle_plugin params now hby hst hset
  obtain ⟨⟨f, hf⟩, ⟨g, hg⟩⟩ := getChannelState_present hst
  have hget := getChannelState_kvGetFails hst
  have hw : wrapInt64 (now + (settleParams params (20, [])).1 * 1000) =
      now + 1000 * (settleParams params (20, [])).1 := by
    rw [wrapInt64_of_range (by omega) (by omega), Int.mul_comm]
  rw [hw] at hplug
  refine ⟨?_, ?_⟩
  · rw [hplug, savedState_withChannelState]
    split <;> rfl
  · intro hlocked
    have hplug' : (executeSettle p args params now).plugin =
        withChannelState p args.ChannelId
          { Mode := ModeLocked, Speakers := st.Speakers, QASlots := st.QASlots,
            SettleUntil := now + 1000 * (settleParams params (20, [])).1,
            SettleAgents := some
              (if (settleParams params (20, [])).2.length = 0 then ["all"]
               else (settleParams params (20, [])).2),
            PreviousMode := ModeLocked } := by
      rw [hplug]
      split
      · rw [hlocked]
      · obtain ⟨mode, speakers, qaSlots, settleUntil, settleAgents, previousMode⟩ := st
        simp only at hlocked
        subst hlocked
        rfl
    refine ⟨hplug', ?_⟩
    intro n
    rw [hplug']
    exact settleRestore_iterate_locked n
      (getChannelState_withChannelState hget hf hg rfl) hset rfl rfl

/-- Witness of C23: the second `/settle` on the channel the first one locked, which was in
Q&A mode before: the previous mode written is `locked`, and after the restore the mode is
`locked`, `qa` being gone. -/
theorem resettle_loses_original_mode_witness :
    ((savedState (executeSettle firstSettlePlugin ⟨"admin1", "c1", "/settle 60"⟩ ["60"]
        1500).plugin "c1").map (fun s => s.PreviousMode) = some ModeLocked ∧
      (ModeLocked = ModeLocked →
        (executeSettle firstSettlePlugin ⟨"admin1", "c1", "/settle 60"⟩ ["60"] 1500).plugin =
          withChannelState firstSettlePlugin "c1"
            { Mode := ModeLocked, Speakers := (sampleState ModeQA 0).Speakers,
              QASlots := (sampleState ModeQA 0).QASlots,
              SettleUntil := 1500 + 1000 * (settleParams ["60"] (20, [])).1,
              SettleAgents := some
                (if (settleParams ["60"] (20, [])).2.length = 0 then ["all"]
                 else (settleParams ["60"] (20, [])).2),
              PreviousMode := ModeLocked } ∧
        ∀ n : Nat, ∃ s',
          getChannelState
            (Nat.iterate (fun q => settleRestore q "c1") n
              (executeSettle firstSettlePlugin ⟨"admin1", "c1", "/settle 60"⟩ ["60"]
                1500).plugin) "c1" = .ok s' ∧
          s'.Mode = ModeLocked ∧ s'.PreviousMode = ModeLocked)) ∧
    (savedState (samplePlugin (sampleKV (sampleState ModeQA 0))) "c1").map
        (fun s => s.Mode) = some "qa" ∧
    (savedState (settleRestore secondSettlePlugin "c1") "c1").map
        (fun s => (s.Mode, s.PreviousMode)) = some ("locked", "locked") :=
  ⟨resettle_loses_original_mode firstSettlePlugin ⟨"admin1", "c1", "/settle 60"⟩ ["60"] 1500
      { Mode := ModeLocked, Speakers := (sampleState ModeQA 0).Speakers,
        QASlots := (sampleState ModeQA 0).QASlots, SettleUntil := 2000,
        SettleAgents := some ["all"], PreviousMode := "qa" }
      (by decide) (by rfl) (by rfl) (by decide) (by decide),
    by decide, by decide⟩

/-! ## The caller of a stick command -/

/-- C22: for two invocations on the same channel, whoever the callers are, `/stick grant`,
`/stick revoke`, `/stick mode` and `/stick qa-grant` return the same response and leave the
same store, and so does the dispatch of the same command line when it is none of `/settle`
and `/stick list`; on the sample server `u2`, who cannot bypass and is no speaker, makes
themselves a speaker with `/stick grant @bob` and opens a locked channel with
`/stick mode open`. -/
theorem stick_commands_ignore_caller (p : Plugin) (args1 args2 : CommandArgs)
    (params : List String) (hch : args1.ChannelId = args2.ChannelId) :
    executeGrant p args1 params = executeGrant p args2 params ∧
    executeRevoke p args1 params = executeRevoke p args2 params ∧
    executeMode p args1 params = executeMode p args2 params ∧
    executeQAGrant p args1 params = executeQAGrant p args2 params ∧
    (∀ (now : Int) (executeList : Plugin → CommandArgs → CommandResult)
        (first command : String) (rest : List String),
      args1.Command = args2.Command →
      stringsFields args1.Command = first :: command :: rest →
      trimPrefixStr first "/" ≠ "settle" → command ≠ "list" →
      ExecuteCommand p args1 now executeList = ExecuteCommand p args2 now executeList) ∧
    ((canBypassTalkingStick (samplePlugin (sampleKV (sampleState ModeLocked 0))) "u2" "c1").1 =
        false ∧
      (sampleState ModeLocked 0).Speakers.lookup "u2" = none ∧
      ((ExecuteCommand (samplePlugin (sampleKV (sampleState ModeLocked 0)))
          ⟨"u2", "c1", "/stick grant @bob"⟩ 1000 (fun q _ => helpResponse q)).bind
        (fun r => (savedState r.plugin "c1").bind (fun s => s.Speakers.lookup "u2"))) =
        some true ∧
      ((ExecuteCommand (samplePlugin (sampleKV (sampleState ModeLocked 0)))
          ⟨"u2", "c1", "/stick mode open"⟩ 1000 (fun q _ => helpResponse q)).bind
        (fun r => (savedState r.plugin "c1").map (fun s => s.Mode))) = some "open") := by
  have hg : ∀ ps, executeGrant p args1 ps = executeGrant p args2 ps := by
    intro ps
    unfold executeGrant
    rw [hch]
  have hr : ∀ ps, executeRevoke p args1 ps = executeRevoke p args2 ps := by
    intro ps
    unfold executeRevoke
    rw [hch]
  have hm : ∀ ps, executeMode p args1 ps = executeMode p args2 ps := by
    intro ps
    unfold executeMode
    rw [hch]
  have hq : ∀ ps, executeQAGrant p args1 ps = executeQAGrant p args2 ps := by
    intro ps
    unfold executeQAGrant
    rw [hch]
  refine ⟨hg params, hr params, hm params, hq params, ?_, by decide⟩
  intro now executeList first command rest hcmd hfields htrigger hlist
  unfold ExecuteCommand
  rw [← hcmd, hfields]
  simp only [htrigger, if_false, hlist, hg, hr, hm, hq]

/-- Witness of C22: the plain member `u2` and the administrator `admin1` run
`/stick grant @bob` in channel `c1`. -/
theorem stick_commands_ignore_caller_witness :
    executeGrant (samplePlugin (sampleKV (sampleState ModeSpeakersOnly 0)))
        ⟨"u2", "c1", "/stick grant @bob"⟩ ["@bob"] =
      executeGrant (samplePlugin (sampleKV (sampleState ModeSpeakersOnly 0)))
        ⟨"admin1", "c1", "/stick grant @bob"⟩ ["@bob"] ∧
    ExecuteCommand (samplePlugin (sampleKV (sampleState ModeSpeakersOnly 0)))
        ⟨"u2", "c1", "/stick grant @bob"⟩ 1000 (fun q _ => helpResponse q) =
      ExecuteCommand (samplePlugin (sampleKV (sampleState ModeSpeakersOnly 0)))
        ⟨"admin1", "c1", "/stick grant @bob"⟩ 1000 (fun q _ => helpResponse q) :=
  ⟨(stick_commands_ignore_caller (samplePlugin (sampleKV (sampleState ModeSpeakersOnly 0)))
      ⟨"u2", "c1", "/stick grant @bob"⟩ ⟨"admin1", "c1", "/stick grant @bob"⟩ ["@bob"] rfl).1,
    (stick_commands_ignore_caller (samplePlugin (sampleKV (sampleState ModeSpeakersOnly 0)))
      ⟨"u2", "c1", "/stick grant @bob"⟩ ⟨"admin1", "c1", "/stick grant @bob"⟩ ["@bob"]
      rfl).2.2.2.2.1 1000 (fun q _ => helpResponse q) "/stick" "grant" ["@bob"] rfl
      (by decide) (by decide) (by decide)⟩

end TalkingStick
